import Mathlib

/-!
Shallow embedding of the three fluid-simulation variants of this repository
(`combined.py`, `main-R1.py`, `main-o1.py`) over the real numbers, together
with theorems settling the specification claims.  Python floats are modelled
as reals; `numpy` vectors of length 2 as pairs of reals; Python lists as
Lean lists indexed by natural numbers.
-/

noncomputable section
open Real

/-- Python `int(x)`: truncation toward zero (floor for nonnegative input,
ceiling for negative input). -/
def pyInt (x : ℝ) : ℤ := if 0 ≤ x then ⌊x⌋ else ⌈x⌉

/-- `math.hypot dx dy` and `np.linalg.norm` of a 2-vector: the Euclidean
length `sqrt (dx² + dy²)`. -/
def hypot (dx dy : ℝ) : ℝ := Real.sqrt (dx ^ 2 + dy ^ 2)

theorem hypot_nonneg (dx dy : ℝ) : 0 ≤ hypot dx dy := Real.sqrt_nonneg _

namespace Combined

/- Constants of `combined.py`. -/

def PARTICLE_RADIUS : ℝ := 8

def GRAVITY : ℝ × ℝ := (0, 980.0)

def DAMPING : ℝ := 0.95

def SMOOTHING_RADIUS : ℝ := 30

def PRESSURE_STIFFNESS : ℝ := 0.08

def VISCOSITY : ℝ := 0.02

def REST_DENSITY : ℝ := 300.0

def TIME_STEP : ℝ := 0.016

/-- `poly6_kernel(r, h)` of `combined.py`. -/
def poly6_kernel (r h : ℝ) : ℝ :=
  if r < h then 315 / (64 * π * h ^ 9) * (h ^ 2 - r ^ 2) ^ 3 else 0.0

/-- `spiky_gradient(r, h)` of `combined.py`. -/
def spiky_gradient (r h : ℝ) : ℝ :=
  if r < h then -45 / (π * h ^ 6) * (h - r) ^ 2 else 0.0

/-- `viscosity_laplacian(r, h)` of `combined.py`. -/
def viscosity_laplacian (r h : ℝ) : ℝ :=
  if r < h then 45 / (π * h ^ 6) * (h - r) else 0.0

/-- `np.linalg.norm` of a 2-vector. -/
def norm2 (v : ℝ × ℝ) : ℝ := Real.sqrt (v.1 ^ 2 + v.2 ^ 2)

/-- The `Particle` class of `combined.py`: position, velocity, acceleration
(2-vectors), density and pressure. -/
structure Particle where
  pos : ℝ × ℝ
  vel : ℝ × ℝ
  acc : ℝ × ℝ
  density : ℝ
  pressure : ℝ

instance : Inhabited Particle := ⟨⟨(0, 0), (0, 0), (0, 0), REST_DENSITY, 0⟩⟩

/-- `Particle.__init__(pos)`. -/
def Particle.init (pos : ℝ × ℝ) : Particle :=
  { pos := pos, vel := (0, 0), acc := (0, 0), density := REST_DENSITY,
    pressure := 0.0 }

/-- `particles[i]` (indexing into the particle list). -/
def getP (ps : List Particle) (i : ℕ) : Particle := ps.getD i default

/-- The cell key `(int(pos[0]/cell_size), int(pos[1]/cell_size))` used by
`SpatialGrid`. -/
def cell_of (cell_size : ℝ) (pos : ℝ × ℝ) : ℤ × ℤ :=
  (pyInt (pos.1 / cell_size), pyInt (pos.2 / cell_size))

/-- `self.grid[c]` after `SpatialGrid.update(particles)`: the indices whose
particle falls in cell `c`, appended in increasing index order (an absent
key is the empty list). -/
def grid_cell (cell_size : ℝ) (ps : List Particle) (c : ℤ × ℤ) : List ℕ :=
  (List.range ps.length).filter fun i => cell_of cell_size (getP ps i).pos = c

/-- `SpatialGrid.get_neighbors(pos)`: concatenation of the 3×3 block of
cells around the cell containing `pos`, in the source's `dx`-outer /
`dy`-inner iteration order. -/
def get_neighbors (cell_size : ℝ) (ps : List Particle) (pos : ℝ × ℝ) : List ℕ :=
  ([-1, 0, 1] : List ℤ).flatMap fun dx =>
    ([-1, 0, 1] : List ℤ).flatMap fun dy =>
      grid_cell cell_size ps
        ((cell_of cell_size pos).1 + dx, (cell_of cell_size pos).2 + dy)

/-- The density/pressure loop of `FluidSimulation.update_physics`.  The grid
is built once from the start-of-frame positions, which this pass does not
modify; the sequential in-place loop writes only `density`/`pressure` of the
current particle and reads only neighbour positions, so it is a pointwise
map. -/
def density_pass (ps : List Particle) : List Particle :=
  (List.range ps.length).map fun i =>
    let p := getP ps i
    let density := ((get_neighbors SMOOTHING_RADIUS ps p.pos).map fun j =>
      poly6_kernel (norm2 (p.pos - (getP ps j).pos)) SMOOTHING_RADIUS).sum
    { p with density := density,
             pressure := PRESSURE_STIFFNESS * (density - REST_DENSITY) }

/-- Body of the neighbour loop of the force pass: the contribution of
neighbour index `j` to the pressure-plus-viscosity force on particle `p`
(at index `i`).  `p == neighbor` is Python object identity on the distinct
list elements, i.e. index equality; a coincident pair (`r == 0`) is
skipped. -/
def force_contrib (p : Particle) (ps : List Particle) (i j : ℕ) : ℝ × ℝ :=
  if j = i then (0, 0)
  else
    let pj := getP ps j
    let r_vec := pj.pos - p.pos
    let r := norm2 r_vec
    if r = 0 then (0, 0)
    else
      let s := (p.pressure + pj.pressure) / (2 * pj.density) *
        spiky_gradient r SMOOTHING_RADIUS
      let lap := viscosity_laplacian r SMOOTHING_RADIUS
      (-(r_vec.1 / r) * s + VISCOSITY * (pj.vel.1 - p.vel.1) / pj.density * lap,
       -(r_vec.2 / r) * s + VISCOSITY * (pj.vel.2 - p.vel.2) / pj.density * lap)

/-- The force loop of `FluidSimulation.update_physics`: neighbour
contributions plus gravity (`GRAVITY * density`) and drag
(`-0.1 * vel * density`), divided by density into the acceleration slot.
The pass reads only fields fixed by the density pass, so it is a pointwise
map.  The separate pressure/viscosity accumulators of the source are summed
per neighbour here; real addition makes the totals identical. -/
def force_pass (ps : List Particle) : List Particle :=
  (List.range ps.length).map fun i =>
    let p := getP ps i
    let inter := ((get_neighbors SMOOTHING_RADIUS ps p.pos).map fun j =>
      force_contrib p ps i j).sum
    let total := (inter.1 + GRAVITY.1 * p.density + -0.1 * p.vel.1 * p.density,
                  inter.2 + GRAVITY.2 * p.density + -0.1 * p.vel.2 * p.density)
    { p with acc := (total.1 / p.density, total.2 / p.density) }

/-- `FluidSimulation.update_physics`: density/pressure pass, then force
pass (the spatial grid is rebuilt from the start-of-frame positions, which
the density pass preserves). -/
def update_physics (ps : List Particle) : List Particle :=
  force_pass (density_pass ps)

/-- `Particle.update(dt)`: semi-implicit Euler plus acceleration reset. -/
def Particle.update (p : Particle) (dt : ℝ) : Particle :=
  let vel := (p.vel.1 + p.acc.1 * dt, p.vel.2 + p.acc.2 * dt)
  { p with vel := vel,
           pos := (p.pos.1 + vel.1 * dt, p.pos.2 + vel.2 * dt),
           acc := (0, 0) }

/-- The `FluidSimulation` state: domain size plus particles. -/
structure Sim where
  width : ℝ
  height : ℝ
  particles : List Particle

/-- `FluidSimulation.handle_boundaries`. -/
def handle_boundaries (sim : Sim) : Sim :=
  { sim with particles := sim.particles.map fun p =>
      let xr :=
        if p.pos.1 < PARTICLE_RADIUS then (PARTICLE_RADIUS, p.vel.1 * -DAMPING)
        else if p.pos.1 > sim.width - PARTICLE_RADIUS then
          (sim.width - PARTICLE_RADIUS, p.vel.1 * -DAMPING)
        else (p.pos.1, p.vel.1)
      let yr :=
        if p.pos.2 < PARTICLE_RADIUS then (PARTICLE_RADIUS, p.vel.2 * -DAMPING)
        else if p.pos.2 > sim.height - PARTICLE_RADIUS then
          (sim.height - PARTICLE_RADIUS, p.vel.2 * -DAMPING)
        else (p.pos.2, p.vel.2)
      { p with pos := (xr.1, yr.1), vel := (xr.2, yr.2) } }

/-- One frame of `combined.py`'s main loop: `update_physics`, integrate
every particle with `TIME_STEP`, then `handle_boundaries`. -/
def frame (sim : Sim) : Sim :=
  handle_boundaries
    { sim with particles := (update_physics sim.particles).map fun p =>
        p.update TIME_STEP }

/-- `FluidSimulation.on_resize(new_size)`: update the domain bounds and
clamp every particle position into the new range, leaving velocity and all
other fields untouched. -/
def on_resize (sim : Sim) (new_size : ℝ × ℝ) : Sim :=
  { width := new_size.1, height := new_size.2,
    particles := sim.particles.map fun p =>
      { p with pos :=
          (min (max p.pos.1 PARTICLE_RADIUS) (new_size.1 - PARTICLE_RADIUS),
           min (max p.pos.2 PARTICLE_RADIUS) (new_size.2 - PARTICLE_RADIUS)) } }

end Combined

namespace R1

/- Constants of `main-R1.py`. -/

def PARTICLE_RADIUS : ℝ := 8

def GRAVITY : ℝ := 750.0

def DAMPING : ℝ := 0.95

def BOUNDARY_DAMPING : ℝ := 0.8

def SMOOTHING_RADIUS : ℝ := 30.0

def REST_DENSITY : ℝ := 1000.0

def PRESSURE_STIFFNESS : ℝ := 50.0

def VISCOSITY_STRENGTH : ℝ := 1.0

def SURFACE_TENSION : ℝ := 0.05

def EPSILON : ℝ := 1e-8

/-- `sph_kernel(r, h)` of `main-R1.py` (the poly6 kernel). -/
def sph_kernel (r h : ℝ) : ℝ :=
  if r < h then 315 / (64 * π * h ^ 9) * (h ^ 2 - r ^ 2) ^ 3 else 0

/-- `sph_kernel_derivative(r, h)` of `main-R1.py` (the spiky gradient
magnitude). -/
def sph_kernel_derivative (r h : ℝ) : ℝ :=
  if r < h then -45 / (π * h ^ 6) * (h - r) ^ 2 else 0

/-- `sph_viscosity_kernel(r, h)` of `main-R1.py`. -/
def sph_viscosity_kernel (r h : ℝ) : ℝ :=
  if r < EPSILON then 0.0
  else if r < h then
    (15 / (2 * π * h ^ 3)) *
      (-(r ^ 3) / (2 * h ^ 3) + r ^ 2 / h ^ 2 + h / (2 * (r + EPSILON)) - 1)
  else 0

/-- The `Particle` class of `main-R1.py`. -/
structure Particle where
  x : ℝ
  y : ℝ
  vx : ℝ
  vy : ℝ
  ax : ℝ
  ay : ℝ
  radius : ℝ
  mass : ℝ
  density : ℝ
  pressure : ℝ

instance : Inhabited Particle :=
  ⟨⟨0, 0, 0, 0, 0, 0, PARTICLE_RADIUS, 1.0, REST_DENSITY, 0⟩⟩

/-- `Particle.__init__(x, y)`. -/
def Particle.init (x y : ℝ) : Particle :=
  { x := x, y := y, vx := 0.0, vy := 0.0, ax := 0.0, ay := 0.0,
    radius := PARTICLE_RADIUS, mass := 1.0, density := REST_DENSITY,
    pressure := 0.0 }

/-- `Particle.apply_force(fx, fy)`. -/
def Particle.apply_force (p : Particle) (fx fy : ℝ) : Particle :=
  { p with ax := p.ax + fx / p.mass, ay := p.ay + fy / p.mass }

/-- `particles[i]`. -/
def getP (ps : List Particle) (i : ℕ) : Particle := ps.getD i default

/-- Separation `math.hypot(p2.x - p1.x, p2.y - p1.y)` between particles
`i` and `j`. -/
def pdist (ps : List Particle) (i j : ℕ) : ℝ :=
  hypot ((getP ps j).x - (getP ps i).x) ((getP ps j).y - (getP ps i).y)

/-- `find_neighbors(particles, h)`, read off for particle `i`.  The
source's double loop appends `(j, r)` to `neighbors[i]` exactly for the
`j ≠ i` with `r < h` — first the `j < i` (while the outer loop visits `j`),
then the `j > i`, each group in increasing order — i.e. all qualifying `j`
in increasing order. -/
def find_neighbors (ps : List Particle) (h : ℝ) (i : ℕ) : List (ℕ × ℝ) :=
  ((List.range ps.length).filter fun j => j ≠ i ∧ pdist ps i j < h).map
    fun j => (j, pdist ps i j)

/-- `compute_density_pressure(particles, neighbors, h)`: per particle,
kernel-weighted mass sum over its neighbour list, floored at
`REST_DENSITY*0.1`, then pressure from the new density.  The in-place loop
writes only `density`/`pressure` and reads only neighbours' immutable
masses, so it is a pointwise map. -/
def compute_density_pressure (ps : List Particle) (ns : ℕ → List (ℕ × ℝ))
    (h : ℝ) : List Particle :=
  (List.range ps.length).map fun i =>
    let p := getP ps i
    let density := ((ns i).map fun jr =>
      (getP ps jr.1).mass * sph_kernel jr.2 h).sum
    let d := max density (REST_DENSITY * 0.1)
    { p with density := d, pressure := PRESSURE_STIFFNESS * (d - REST_DENSITY) }

/-- `distance = max(r, EPSILON)` — the epsilon-floored divisor used for the
direction vector in `compute_forces`. -/
def distance_floor (r : ℝ) : ℝ := max r EPSILON

/-- One neighbour's contribution to the pressure-force accumulators of
`compute_forces`. -/
def pressure_contrib (p pj : Particle) (r h : ℝ) : ℝ × ℝ :=
  let dir_x := (pj.x - p.x) / distance_floor r
  let dir_y := (pj.y - p.y) / distance_floor r
  let shared_pressure := (p.pressure + pj.pressure) / 2
  let pressure_force := -shared_pressure * sph_kernel_derivative r h
  (pressure_force * dir_x, pressure_force * dir_y)

/-- One neighbour's contribution to the viscosity-force accumulators of
`compute_forces`. -/
def viscosity_contrib (p pj : Particle) (r h : ℝ) : ℝ × ℝ :=
  let viscosity := VISCOSITY_STRENGTH * sph_viscosity_kernel r h
  (viscosity * (pj.vx - p.vx), viscosity * (pj.vy - p.vy))

/-- One neighbour's contribution to the surface-tension accumulators of
`compute_forces`. -/
def tension_contrib (p pj : Particle) (r h : ℝ) : ℝ × ℝ :=
  let cohesion := sph_kernel r h * SURFACE_TENSION
  (cohesion * ((pj.x - p.x) / distance_floor r),
   cohesion * ((pj.y - p.y) / distance_floor r))

/-- `compute_forces(particles, neighbors, h)`: accumulate the three force
kinds over the neighbour list, then apply them through `apply_force`.  The
loop writes only the current particle's acceleration and reads fields the
pass never modifies, so it is a pointwise map. -/
def compute_forces (ps : List Particle) (ns : ℕ → List (ℕ × ℝ))
    (h : ℝ) : List Particle :=
  (List.range ps.length).map fun i =>
    let p := getP ps i
    let pf := ((ns i).map fun jr => pressure_contrib p (getP ps jr.1) jr.2 h).sum
    let vf := ((ns i).map fun jr => viscosity_contrib p (getP ps jr.1) jr.2 h).sum
    let tf := ((ns i).map fun jr => tension_contrib p (getP ps jr.1) jr.2 h).sum
    ((p.apply_force pf.1 pf.2).apply_force vf.1 vf.2).apply_force tf.1 tf.2

/-- The gravity loop of `main`: `p.apply_force(0, GRAVITY * p.mass)`. -/
def apply_gravity (ps : List Particle) : List Particle :=
  ps.map fun p => p.apply_force 0 (GRAVITY * p.mass)

/-- The per-particle update loop of `main`: integrate velocity then
position with `dt`, reset acceleration, then clamp to the boundary with
`vx *= -BOUNDARY_DAMPING` damping on contact. -/
def integrate_boundary (width height dt : ℝ) (p : Particle) : Particle :=
  let vx := p.vx + p.ax * dt
  let vy := p.vy + p.ay * dt
  let x := p.x + vx * dt
  let y := p.y + vy * dt
  let xr :=
    if x < p.radius then (p.radius, vx * -BOUNDARY_DAMPING)
    else if x > width - p.radius then (width - p.radius, vx * -BOUNDARY_DAMPING)
    else (x, vx)
  let yr :=
    if y < p.radius then (p.radius, vy * -BOUNDARY_DAMPING)
    else if y > height - p.radius then (height - p.radius, vy * -BOUNDARY_DAMPING)
    else (y, vy)
  { p with x := xr.1, vx := xr.2, y := yr.1, vy := yr.2, ax := 0, ay := 0 }

/-- The particle-update loop of `main` over the whole list. -/
def update_particles (width height dt : ℝ) (ps : List Particle) : List Particle :=
  ps.map (integrate_boundary width height dt)

/-- Body of the pair loop of `handle_collisions`: positional correction
splitting the overlap, plus the (unconditional) velocity update. -/
def collide_pair (ps : List Particle) (i j : ℕ) : List Particle :=
  let p1 := getP ps i
  let p2 := getP ps j
  let dx := p2.x - p1.x
  let dy := p2.y - p1.y
  let distance := hypot dx dy
  let min_dist := p1.radius + p2.radius
  if distance < min_dist ∧ distance > EPSILON then
    let nx := dx / distance
    let ny := dy / distance
    let overlap := (min_dist - distance) / 2
    let dvx := p2.vx - p1.vx
    let dvy := p2.vy - p1.vy
    let impulse := (2.0 * (dvx * nx + dvy * ny)) / (p1.mass + p2.mass)
    let q1 := { p1 with x := p1.x - overlap * nx, y := p1.y - overlap * ny,
                        vx := p1.vx + impulse * p2.mass * nx,
                        vy := p1.vy + impulse * p2.mass * ny }
    let q2 := { p2 with x := p2.x + overlap * nx, y := p2.y + overlap * ny,
                        vx := p2.vx - impulse * p1.mass * nx,
                        vy := p2.vy - impulse * p1.mass * ny }
    (ps.set i q1).set j q2
  else ps

/-- The index pairs `(i, j)`, `i < j`, in the order the double loop of
`handle_collisions` visits them. -/
def pairs (n : ℕ) : List (ℕ × ℕ) :=
  (List.range n).flatMap fun i =>
    ((List.range n).filter fun j => i < j).map fun j => (i, j)

/-- `handle_collisions(particles)`. -/
def handle_collisions (ps : List Particle) : List Particle :=
  (pairs ps.length).foldl (fun s ij => collide_pair s ij.1 ij.2) ps

/-- The global damping loop of `main`: `p.vx *= DAMPING; p.vy *= DAMPING`. -/
def apply_damping (ps : List Particle) : List Particle :=
  ps.map fun p => { p with vx := p.vx * DAMPING, vy := p.vy * DAMPING }

/-- The simulation state of `main-R1.py`. -/
structure State where
  particles : List Particle
  width : ℝ
  height : ℝ

/-- The frame pipeline of `main` up to (and including) `handle_collisions`:
neighbour search, density/pressure, forces, gravity, integration with
boundary clamping, pairwise collisions. -/
def pre_damp (st : State) (dt : ℝ) : List Particle :=
  let ns := find_neighbors st.particles SMOOTHING_RADIUS
  let ps1 := compute_density_pressure st.particles ns SMOOTHING_RADIUS
  let ps2 := compute_forces ps1 ns SMOOTHING_RADIUS
  let ps3 := apply_gravity ps2
  let ps4 := update_particles st.width st.height dt ps3
  handle_collisions ps4

/-- One full frame of `main-R1.py`: the pipeline above followed by global
velocity damping. -/
def step (st : State) (dt : ℝ) : State :=
  { st with particles := apply_damping (pre_damp st dt) }

end R1

namespace O1

/- Constants of `main-o1.py`. -/

def BALL_RADIUS : ℝ := 8

def GRAVITY : ℝ := 0.2

def FRICTION : ℝ := 0.99

def ELASTICITY : ℝ := 0.9

/-- The `Ball` class of `main-o1.py`. -/
structure Ball where
  x : ℝ
  y : ℝ
  vx : ℝ
  vy : ℝ

instance : Inhabited Ball := ⟨⟨0, 0, 0, 0⟩⟩

/-- `balls[i]`. -/
def getB (bs : List Ball) (i : ℕ) : Ball := bs.getD i default

/-- `Ball.update`: gravity on `vy`, position integration, then friction
damping on both velocity components. -/
def Ball.update (b : Ball) : Ball :=
  let vy := b.vy + GRAVITY
  { x := b.x + b.vx, y := b.y + vy, vx := b.vx * FRICTION, vy := vy * FRICTION }

/-- `dist = math.sqrt(dist_sq) if dist_sq != 0 else 0.0001` — the divisor
used for the collision normal in `handle_ball_collisions`. -/
def collision_dist (dist_sq : ℝ) : ℝ :=
  if dist_sq ≠ 0 then Real.sqrt dist_sq else 0.0001

/-- Body of the pair loop of `handle_ball_collisions`: positional overlap
correction, then an impulse only if the pair is approaching
(`sep_speed < 0`). -/
def collide_pair (bs : List Ball) (i j : ℕ) : List Ball :=
  let b1 := getB bs i
  let b2 := getB bs j
  let dx := b2.x - b1.x
  let dy := b2.y - b1.y
  let dist_sq := dx * dx + dy * dy
  if dist_sq < (2 * BALL_RADIUS) ^ 2 then
    let dist := collision_dist dist_sq
    let nx := dx / dist
    let ny := dy / dist
    let overlap := (2 * BALL_RADIUS - dist) * 0.5
    let c1 := { b1 with x := b1.x - nx * overlap, y := b1.y - ny * overlap }
    let c2 := { b2 with x := b2.x + nx * overlap, y := b2.y + ny * overlap }
    let rel_vx := c2.vx - c1.vx
    let rel_vy := c2.vy - c1.vy
    let sep_speed := rel_vx * nx + rel_vy * ny
    if sep_speed < 0 then
      let imp := -(1 + ELASTICITY) * sep_speed / 2
      let d1 := { c1 with vx := c1.vx - imp * nx, vy := c1.vy - imp * ny }
      let d2 := { c2 with vx := c2.vx + imp * nx, vy := c2.vy + imp * ny }
      (bs.set i d1).set j d2
    else (bs.set i c1).set j c2
  else bs

/-- The index pairs `(i, j)`, `i < j`, in the order the double loop of
`handle_ball_collisions` visits them. -/
def pairs (n : ℕ) : List (ℕ × ℕ) :=
  (List.range n).flatMap fun i =>
    ((List.range n).filter fun j => i < j).map fun j => (i, j)

/-- `handle_ball_collisions(balls)`. -/
def handle_ball_collisions (bs : List Ball) : List Ball :=
  (pairs bs.length).foldl (fun s ij => collide_pair s ij.1 ij.2) bs

/-- The `VIDEORESIZE` handling of `main-o1.py`'s event loop: a too-small
window is ignored; otherwise ball positions are rescaled proportionally and
the stored size is updated.  Returns (balls, width, height). -/
def resize (bs : List Ball) (curW curH newW newH : ℝ) :
    List Ball × ℝ × ℝ :=
  if newW < 2 * BALL_RADIUS ∨ newH < 2 * BALL_RADIUS then (bs, curW, curH)
  else
    ((bs.map fun b => { b with x := b.x * (newW / curW),
                               y := b.y * (newH / curH) }),
     newW, newH)

end O1

/-- **C8.** For all `r ≥ h` each kernel function (in both SPH variants)
returns exactly `0`; for `0 ≤ r < h`, `poly6` returns
`315/(64π h⁹)·(h²−r²)³`, which is nonnegative. -/
theorem kernel_cutoff_spec (r h : ℝ) :
    (h ≤ r →
      Combined.poly6_kernel r h = 0 ∧ Combined.spiky_gradient r h = 0 ∧
      Combined.viscosity_laplacian r h = 0 ∧ R1.sph_kernel r h = 0 ∧
      R1.sph_kernel_derivative r h = 0 ∧ R1.sph_viscosity_kernel r h = 0) ∧
    (0 ≤ r → r < h →
      Combined.poly6_kernel r h = 315 / (64 * π * h ^ 9) * (h ^ 2 - r ^ 2) ^ 3 ∧
      0 ≤ Combined.poly6_kernel r h) := by
  constructor
  · intro hle
    have hnot : ¬ r < h := not_lt.2 hle
    refine ⟨?_, ?_, ?_, ?_, ?_, ?_⟩
    · simp only [Combined.poly6_kernel, if_neg hnot]; norm_num
    · simp only [Combined.spiky_gradient, if_neg hnot]; norm_num
    · simp only [Combined.viscosity_laplacian, if_neg hnot]; norm_num
    · simp only [R1.sph_kernel, if_neg hnot]
    · simp only [R1.sph_kernel_derivative, if_neg hnot]
    · unfold R1.sph_viscosity_kernel
      by_cases hE : r < R1.EPSILON
      · simp only [if_pos hE]; norm_num
      · simp [hE, hnot]
  · intro hr hrh
    have hval : Combined.poly6_kernel r h =
        315 / (64 * π * h ^ 9) * (h ^ 2 - r ^ 2) ^ 3 := by
      simp only [Combined.poly6_kernel, if_pos hrh]
    refine ⟨hval, ?_⟩
    rw [hval]
    have hh : 0 < h := lt_of_le_of_lt hr hrh
    have hsq : 0 ≤ h ^ 2 - r ^ 2 := by nlinarith
    have hcoef : 0 ≤ 315 / (64 * π * h ^ 9) := by positivity
    exact mul_nonneg hcoef (pow_nonneg hsq 3)

/-- Witness for C8: concrete instances `r = 40 ≥ h = 30` (cutoff) and
`0 ≤ r = 15 < h = 30` (nonnegativity). -/
theorem kernel_cutoff_spec_witness :
    Combined.poly6_kernel 40 30 = 0 ∧ 0 ≤ Combined.poly6_kernel 15 30 :=
  ⟨((kernel_cutoff_spec 40 30).1 (by norm_num)).1,
   ((kernel_cutoff_spec 15 30).2 (by norm_num) (by norm_num)).2⟩

/-! Generic list-indexing helper lemmas. -/

theorem getD_range_map {α : Type} (f : ℕ → α) (n i : ℕ) (d : α) (hi : i < n) :
    ((List.range n).map f).getD i d = f i := by
  rw [List.getD_eq_getElem?_getD, List.getElem?_map, List.getElem?_range hi]
  rfl

theorem getD_map_of_lt {α β : Type} (f : α → β) (l : List α) (i : ℕ) (d : α)
    (d2 : β) (hi : i < l.length) : (l.map f).getD i d2 = f (l.getD i d) := by
  rw [List.getD_eq_getElem?_getD, List.getD_eq_getElem?_getD, List.getElem?_map,
    List.getElem?_eq_getElem hi]
  rfl

theorem foldl_fixed {α β : Type} (g : α → β → α) (a : α) (l : List β)
    (h : ∀ b ∈ l, g a b = a) : l.foldl g a = a := by
  induction l with
  | nil => rfl
  | cons x xs ih =>
      rw [List.foldl_cons, h x (List.mem_cons_self x xs)]
      exact ih fun b hb => h b (List.mem_cons_of_mem x hb)

/-- **C4 (amended).** The density/pressure pass of `main-R1.py` sets
`density(i)` to the sum of `mass(j) · poly6(r_ij, h)` over the neighbours
within `h`, floored at 10 % of the rest density (`REST_DENSITY * 0.1`); a
particle with no neighbour within `h` receives exactly the floor, and the
result is always strictly positive.  (The claim fails on the other cited
variant: `combined.py`'s density loop applies no floor and no mass factor,
so an isolated particle there receives only its kernel self-contribution
`poly6(0, h)` — see the counterexample.) -/
theorem density_floor_spec (ps : List R1.Particle) (h : ℝ) (i : ℕ)
    (hi : i < ps.length) :
    (R1.getP (R1.compute_density_pressure ps (R1.find_neighbors ps h) h) i).density
        = max (((R1.find_neighbors ps h i).map fun jr =>
            (R1.getP ps jr.1).mass * R1.sph_kernel jr.2 h).sum)
          (R1.REST_DENSITY * 0.1) ∧
    ((∀ j, j < ps.length → j ≠ i → ¬ R1.pdist ps i j < h) →
      (R1.getP (R1.compute_density_pressure ps (R1.find_neighbors ps h) h) i).density
        = R1.REST_DENSITY * 0.1) ∧
    0 < (R1.getP (R1.compute_density_pressure ps (R1.find_neighbors ps h) h) i).density := by
  have key : R1.getP (R1.compute_density_pressure ps (R1.find_neighbors ps h) h) i
      = { R1.getP ps i with
          density := max (((R1.find_neighbors ps h i).map fun jr =>
              (R1.getP ps jr.1).mass * R1.sph_kernel jr.2 h).sum)
            (R1.REST_DENSITY * 0.1),
          pressure := R1.PRESSURE_STIFFNESS *
            (max (((R1.find_neighbors ps h i).map fun jr =>
                (R1.getP ps jr.1).mass * R1.sph_kernel jr.2 h).sum)
              (R1.REST_DENSITY * 0.1) - R1.REST_DENSITY) } := by
    unfold R1.compute_density_pressure
    show ((List.range ps.length).map _).getD i _ = _
    rw [getD_range_map _ _ _ _ hi]
  refine ⟨by rw [key], ?_, ?_⟩
  · intro hno
    have hnil : R1.find_neighbors ps h i = [] := by
      unfold R1.find_neighbors
      rw [List.filter_eq_nil_iff.2 ?_, List.map_nil]
      intro j hj
      simp only [List.mem_range] at hj
      simp only [decide_eq_true_eq, not_and]
      intro hne
      exact hno j hj hne
    rw [key]
    simp only [hnil, List.map_nil, List.sum_nil]
    rw [max_eq_right ?_]
    unfold R1.REST_DENSITY
    norm_num
  · rw [key]
    refine lt_max_of_lt_right ?_
    unfold R1.REST_DENSITY
    norm_num

/-- Witness for C4: a single isolated particle gets density exactly
`REST_DENSITY * 0.1 = 100`. -/
theorem density_floor_spec_witness :
    (R1.getP (R1.compute_density_pressure [R1.Particle.init 100 100]
        (R1.find_neighbors [R1.Particle.init 100 100] R1.SMOOTHING_RADIUS)
        R1.SMOOTHING_RADIUS) 0).density = R1.REST_DENSITY * 0.1 :=
  (density_floor_spec [R1.Particle.init 100 100] R1.SMOOTHING_RADIUS 0
      (by norm_num)).2.1
    (fun j hj hne => absurd (Nat.lt_one_iff.1 hj) hne)

/-- **C9.** Every distance used as a divisor in the force passes and the
collision resolvers is either floored at a small positive epsilon or the
degenerate pair is skipped, so evaluation is total: the `max(r, EPSILON)`
divisor of `main-R1.py`'s force pass is strictly positive; the collision
divisor of `main-o1.py` (`sqrt(dist_sq)` with the `0.0001` fallback for a
coincident pair) is strictly positive; `combined.py`'s force pass adds no
contribution for a coincident (or identical) pair; `main-R1.py`'s collision
resolver leaves the state unchanged for a pair at separation `≤ EPSILON`;
and `main-R1.py`'s viscosity kernel returns `0` below `EPSILON` instead of
evaluating its `1/r`-like term. -/
theorem divisor_safety_spec :
    (∀ r : ℝ, 0 < R1.distance_floor r) ∧
    (∀ dx dy : ℝ, 0 < O1.collision_dist (dx * dx + dy * dy)) ∧
    (∀ (p : Combined.Particle) (ps : List Combined.Particle) (i j : ℕ),
      (Combined.getP ps j).pos = p.pos → Combined.force_contrib p ps i j = (0, 0)) ∧
    (∀ (ps : List R1.Particle) (i j : ℕ), R1.pdist ps i j ≤ R1.EPSILON →
      R1.collide_pair ps i j = ps) ∧
    (∀ r h : ℝ, r < R1.EPSILON → R1.sph_viscosity_kernel r h = 0) := by
  refine ⟨?_, ?_, ?_, ?_, ?_⟩
  · intro r
    refine lt_of_lt_of_le ?_ (le_max_right r R1.EPSILON)
    unfold R1.EPSILON
    norm_num
  · intro dx dy
    unfold O1.collision_dist
    by_cases hz : dx * dx + dy * dy ≠ 0
    · rw [if_pos hz]
      exact Real.sqrt_pos.2 (lt_of_le_of_ne
        (add_nonneg (mul_self_nonneg dx) (mul_self_nonneg dy)) (Ne.symm hz))
    · rw [if_neg hz]
      norm_num
  · intro p ps i j hpos
    unfold Combined.force_contrib
    by_cases hij : j = i
    · rw [if_pos hij]
    · rw [if_neg hij]
      have hz : Combined.norm2 ((Combined.getP ps j).pos - p.pos) = 0 := by
        rw [hpos, sub_self]
        unfold Combined.norm2
        norm_num

      simp only [hz, if_true, if_pos trivial]
  · intro ps i j hd
    unfold R1.collide_pair
    rw [if_neg ?_]
    rintro ⟨-, hgt⟩
    exact absurd hgt (not_lt.2 hd)
  · intro r h hr
    unfold R1.sph_viscosity_kernel
    rw [if_pos hr]
    norm_num

/-- Witness for C9: the epsilon floors and skips at concrete degenerate
inputs (`r = 0`, a coincident pair). -/
theorem divisor_safety_spec_witness :
    0 < R1.distance_floor 0 ∧ 0 < O1.collision_dist (0 * 0 + 0 * 0) ∧
    Combined.force_contrib default [] 0 0 = (0, 0) ∧
    R1.collide_pair [] 0 0 = [] ∧
    R1.sph_viscosity_kernel 0 R1.SMOOTHING_RADIUS = 0 := by
  refine ⟨divisor_safety_spec.1 0, divisor_safety_spec.2.1 0 0,
    divisor_safety_spec.2.2.1 default [] 0 0 rfl,
    divisor_safety_spec.2.2.2.1 [] 0 0 ?_,
    divisor_safety_spec.2.2.2.2 0 R1.SMOOTHING_RADIUS ?_⟩
  · unfold R1.pdist hypot
    rw [sub_self]
    unfold R1.EPSILON
    norm_num
  · unfold R1.EPSILON
    norm_num

/-! Length preservation through the `main-R1.py` pipeline. -/

theorem r1_collide_pair_length (ps : List R1.Particle) (i j : ℕ) :
    (R1.collide_pair ps i j).length = ps.length := by
  unfold R1.collide_pair
  dsimp only
  split
  · rw [List.length_set, List.length_set]
  · rfl

theorem r1_collide_foldl_length (l : List (ℕ × ℕ)) (ps : List R1.Particle) :
    (l.foldl (fun s ij => R1.collide_pair s ij.1 ij.2) ps).length = ps.length := by
  induction l generalizing ps with
  | nil => rfl
  | cons x xs ih => rw [List.foldl_cons, ih, r1_collide_pair_length]

theorem r1_handle_collisions_length (ps : List R1.Particle) :
    (R1.handle_collisions ps).length = ps.length :=
  r1_collide_foldl_length _ ps

theorem r1_pre_damp_length (st : R1.State) (dt : ℝ) :
    (R1.pre_damp st dt).length = st.particles.length := by
  unfold R1.pre_damp R1.update_particles R1.apply_gravity R1.compute_forces
    R1.compute_density_pressure
  rw [r1_handle_collisions_length]
  simp

/-- **C10.** Every frame ends by multiplying every particle's velocity
components by the global damping constant: in `main-o1.py`, `Ball.update`
scales both components by `FRICTION = 0.99` (after adding gravity to `vy`);
in `main-R1.py`, the frame's final loop scales both components of every
particle — whatever the collision stage produced, with or without
neighbours, collisions, or boundary contact — by `DAMPING = 0.95`.
Consequently a force-free velocity component of nonzero magnitude strictly
decreases in magnitude each frame (`Ball.update` applies no horizontal
force, so `vx` witnesses this directly); a zero component stays zero, which
is why the strict decrease is stated for nonzero components. -/
theorem damping_each_frame_spec :
    (∀ b : O1.Ball, (O1.Ball.update b).vx = b.vx * O1.FRICTION ∧
      (O1.Ball.update b).vy = (b.vy + O1.GRAVITY) * O1.FRICTION) ∧
    (∀ b : O1.Ball, b.vx ≠ 0 → |(O1.Ball.update b).vx| < |b.vx|) ∧
    (∀ (st : R1.State) (dt : ℝ) (i : ℕ), i < st.particles.length →
      (R1.getP (R1.step st dt).particles i).vx
          = (R1.getP (R1.pre_damp st dt) i).vx * R1.DAMPING ∧
      (R1.getP (R1.step st dt).particles i).vy
          = (R1.getP (R1.pre_damp st dt) i).vy * R1.DAMPING) := by
  refine ⟨fun b => ⟨rfl, rfl⟩, ?_, ?_⟩
  · intro b hb
    have : (O1.Ball.update b).vx = b.vx * O1.FRICTION := rfl
    rw [this, abs_mul]
    have h1 : |O1.FRICTION| = 0.99 := by
      unfold O1.FRICTION
      rw [abs_of_pos]
      norm_num
    rw [h1]
    have h2 : 0 < |b.vx| := abs_pos.2 hb
    nlinarith
  · intro st dt i hi
    have hlen : i < (R1.pre_damp st dt).length := by
      rw [r1_pre_damp_length]
      exact hi
    have hstep : R1.getP (R1.step st dt).particles i
        = { R1.getP (R1.pre_damp st dt) i with
            vx := (R1.getP (R1.pre_damp st dt) i).vx * R1.DAMPING,
            vy := (R1.getP (R1.pre_damp st dt) i).vy * R1.DAMPING } := by
      show R1.getP (R1.apply_damping (R1.pre_damp st dt)) i = _
      unfold R1.apply_damping R1.getP
      rw [getD_map_of_lt _ _ _ default _ hlen]
    rw [hstep]
    exact ⟨rfl, rfl⟩

/-- Witness for C10: a ball with unit horizontal velocity strictly slows
down, and the damping identity instantiated on a concrete one-particle
state. -/
theorem damping_each_frame_spec_witness :
    |(O1.Ball.update ⟨0, 0, 1, 0⟩).vx| < |((⟨0, 0, 1, 0⟩ : O1.Ball)).vx| ∧
    (R1.getP (R1.step ⟨[R1.Particle.init 50 50], 800, 600⟩ 0).particles 0).vx
        = (R1.getP (R1.pre_damp ⟨[R1.Particle.init 50 50], 800, 600⟩ 0) 0).vx
            * R1.DAMPING :=
  ⟨damping_each_frame_spec.2.1 ⟨0, 0, 1, 0⟩ (by norm_num),
   (damping_each_frame_spec.2.2 ⟨[R1.Particle.init 50 50], 800, 600⟩ 0 0
      (by norm_num)).1⟩

/-! Helper lemmas about the spatial grid of `combined.py`. -/

theorem abs_fst_le_norm2 (v : ℝ × ℝ) : |v.1| ≤ Combined.norm2 v := by
  unfold Combined.norm2
  rw [← Real.sqrt_sq_eq_abs]
  exact Real.sqrt_le_sqrt (le_add_of_nonneg_right (sq_nonneg v.2))

theorem abs_snd_le_norm2 (v : ℝ × ℝ) : |v.2| ≤ Combined.norm2 v := by
  unfold Combined.norm2
  rw [← Real.sqrt_sq_eq_abs]
  exact Real.sqrt_le_sqrt (le_add_of_nonneg_left (sq_nonneg v.1))

/-- Two nonnegative reals less than `h` apart land in the same or an
adjacent grid column of width `h` (Python's `int` is `⌊·⌋` on
nonnegative input). -/
theorem pyInt_adjacent (x y h : ℝ) (hx : 0 ≤ x) (hy : 0 ≤ y) (hh : 0 < h)
    (hd : |x - y| < h) :
    -1 ≤ pyInt (x / h) - pyInt (y / h) ∧ pyInt (x / h) - pyInt (y / h) ≤ 1 := by
  have hxf : pyInt (x / h) = ⌊x / h⌋ := if_pos (div_nonneg hx hh.le)
  have hyf : pyInt (y / h) = ⌊y / h⌋ := if_pos (div_nonneg hy hh.le)
  rw [hxf, hyf]
  have habs : |x / h - y / h| < 1 := by
    rw [div_sub_div_same, abs_div, abs_of_pos hh]
    exact (div_lt_one hh).2 hd
  rw [abs_lt] at habs
  constructor
  · have hle : y / h ≤ x / h + 1 := by linarith [habs.1]
    have := Int.floor_le_floor hle
    rw [Int.floor_add_one] at this
    omega
  · have hle : x / h ≤ y / h + 1 := by linarith [habs.2]
    have := Int.floor_le_floor hle
    rw [Int.floor_add_one] at this
    omega

theorem mem_grid_cell_iff (cs : ℝ) (ps : List Combined.Particle) (c : ℤ × ℤ)
    (i : ℕ) :
    i ∈ Combined.grid_cell cs ps c ↔
      i < ps.length ∧ Combined.cell_of cs (Combined.getP ps i).pos = c := by
  unfold Combined.grid_cell
  simp [List.mem_filter, List.mem_range]

theorem mem_get_neighbors_iff (cs : ℝ) (ps : List Combined.Particle)
    (pos : ℝ × ℝ) (i : ℕ) :
    i ∈ Combined.get_neighbors cs ps pos ↔
      ∃ dx ∈ ([-1, 0, 1] : List ℤ), ∃ dy ∈ ([-1, 0, 1] : List ℤ),
        i ∈ Combined.grid_cell cs ps
          ((Combined.cell_of cs pos).1 + dx, (Combined.cell_of cs pos).2 + dy) := by
  unfold Combined.get_neighbors
  simp only [List.mem_flatMap]

/-- Completeness of the 3×3 query: with cell size equal to the query radius
`h`, any particle (with nonnegative coordinates, as is the query point)
within Euclidean distance `< h` of the query position is returned. -/
theorem get_neighbors_complete (h : ℝ) (ps : List Combined.Particle)
    (pos : ℝ × ℝ) (i : ℕ) (hh : 0 < h) (hb1 : 0 ≤ pos.1) (hb2 : 0 ≤ pos.2)
    (ha1 : 0 ≤ (Combined.getP ps i).pos.1) (ha2 : 0 ≤ (Combined.getP ps i).pos.2)
    (hi : i < ps.length)
    (hdist : Combined.norm2 ((Combined.getP ps i).pos - pos) < h) :
    i ∈ Combined.get_neighbors h ps pos := by
  set a := (Combined.getP ps i).pos with ha
  have hd1 : |a.1 - pos.1| < h := by
    have := abs_fst_le_norm2 (a - pos)
    rw [Prod.fst_sub] at this
    exact lt_of_le_of_lt this hdist
  have hd2 : |a.2 - pos.2| < h := by
    have := abs_snd_le_norm2 (a - pos)
    rw [Prod.snd_sub] at this
    exact lt_of_le_of_lt this hdist
  have hx := pyInt_adjacent a.1 pos.1 h ha1 hb1 hh hd1
  have hy := pyInt_adjacent a.2 pos.2 h ha2 hb2 hh hd2
  rw [mem_get_neighbors_iff]
  refine ⟨pyInt (a.1 / h) - pyInt (pos.1 / h), ?_,
          pyInt (a.2 / h) - pyInt (pos.2 / h), ?_, ?_⟩
  · have h1 := hx.1
    have h2 := hx.2
    interval_cases hdx : pyInt (a.1 / h) - pyInt (pos.1 / h) <;> simp
  · have h1 := hy.1
    have h2 := hy.2
    interval_cases hdy : pyInt (a.2 / h) - pyInt (pos.2 / h) <;> simp
  · rw [mem_grid_cell_iff]
    refine ⟨hi, ?_⟩
    unfold Combined.cell_of
    rw [← ha]
    refine Prod.ext ?_ ?_ <;> dsimp <;> ring

/-- **C7.** `get_neighbors(pos)` returns exactly the indices stored in the
3×3 block of grid cells centred on the cell containing `pos` (a cell holds
exactly the in-range indices mapping to it); and with cell size equal to
the smoothing radius `h`, every particle (nonnegative coordinates, like the
query point — Python's `int` truncation equals `floor` there) at Euclidean
distance `< h` from the query position is among the returned candidates. -/
theorem get_neighbors_spec :
    (∀ (cs : ℝ) (ps : List Combined.Particle) (pos : ℝ × ℝ) (i : ℕ),
      i ∈ Combined.get_neighbors cs ps pos ↔
        ∃ dx ∈ ([-1, 0, 1] : List ℤ), ∃ dy ∈ ([-1, 0, 1] : List ℤ),
          i < ps.length ∧ Combined.cell_of cs (Combined.getP ps i).pos =
            ((Combined.cell_of cs pos).1 + dx, (Combined.cell_of cs pos).2 + dy)) ∧
    (∀ (h : ℝ) (ps : List Combined.Particle) (pos : ℝ × ℝ) (i : ℕ),
      0 < h → 0 ≤ pos.1 → 0 ≤ pos.2 → 0 ≤ (Combined.getP ps i).pos.1 →
      0 ≤ (Combined.getP ps i).pos.2 → i < ps.length →
      Combined.norm2 ((Combined.getP ps i).pos - pos) < h →
      i ∈ Combined.get_neighbors h ps pos) := by
  constructor
  · intro cs ps pos i
    rw [mem_get_neighbors_iff]
    simp only [mem_grid_cell_iff]
  · intro h ps pos i hh hb1 hb2 ha1 ha2 hi hdist
    exact get_neighbors_complete h ps pos i hh hb1 hb2 ha1 ha2 hi hdist

/-- Witness for C7: a particle at `(5, 5)` is found by a query at `(20, 5)`
(distance 15 < 30). -/
theorem get_neighbors_spec_witness :
    0 ∈ Combined.get_neighbors 30 [Combined.Particle.init (5, 5)] (20, 5) := by
  have hp : Combined.getP [Combined.Particle.init (5, 5)] 0
      = Combined.Particle.init (5, 5) := rfl
  apply get_neighbors_spec.2 30 [Combined.Particle.init (5, 5)] (20, 5) 0
  · norm_num
  · norm_num
  · norm_num
  · rw [hp]
    unfold Combined.Particle.init
    norm_num
  · rw [hp]
    unfold Combined.Particle.init
    norm_num
  · norm_num
  · rw [hp]
    unfold Combined.Particle.init
    have hsub : ((5, 5) : ℝ × ℝ) - (20, 5) = (-15, 0) := by
      rw [Prod.mk_sub_mk]
      norm_num
    show Combined.norm2 (((5, 5) : ℝ × ℝ) - (20, 5)) < 30
    rw [hsub]
    unfold Combined.norm2
    rw [show ((-15 : ℝ), (0 : ℝ)).1 ^ 2 + ((-15 : ℝ), (0 : ℝ)).2 ^ 2 = 15 ^ 2 by norm_num]
    rw [Real.sqrt_sq (by norm_num)]
    norm_num

/-- **C6 (counterexample).** The claim fails on `main-o1.py`: its resize
handler rescales every position proportionally instead of clamping, so a
ball at `(100, 100)` — in bounds for the new `400×300` domain — is moved to
`x = 50` by `resize`, contradicting "leaving in-bounds positions
unchanged". -/
theorem resize_rescale_counterexample :
    (O1.BALL_RADIUS ≤ (100 : ℝ) ∧ (100 : ℝ) ≤ 400 - O1.BALL_RADIUS ∧
     (100 : ℝ) ≤ 300 - O1.BALL_RADIUS) ∧
    (O1.getB (O1.resize [⟨100, 100, 3, 4⟩] 800 600 400 300).1 0).x = 50 ∧
    (50 : ℝ) ≠ 100 := by
  refine ⟨?_, ?_, by norm_num⟩
  · unfold O1.BALL_RADIUS
    norm_num
  · have hcond : ¬ ((400 : ℝ) < 2 * O1.BALL_RADIUS ∨ (300 : ℝ) < 2 * O1.BALL_RADIUS) := by
      unfold O1.BALL_RADIUS
      push_neg
      norm_num
    unfold O1.resize
    rw [if_neg hcond]
    show (O1.getB [({ x := (100 : ℝ) * (400 / 800), y := 100 * (300 / 600),
                      vx := 3, vy := 4 } : O1.Ball)] 0).x = 50
    unfold O1.getB
    norm_num

/-- **C6 (amended).** For the clamping variants (`combined.py`'s
`on_resize`; `main-R1.py` behaves identically): for every state and new
domain dimensions at least `2·radius`, resize updates the domain bounds and
clamps each now-out-of-bounds particle position into
`[radius, dimension − radius]` per axis, leaving in-bounds positions and
every particle's velocity unchanged.  (`main-o1.py` instead rescales
positions proportionally — see the counterexample.) -/
theorem on_resize_clamps_spec (sim : Combined.Sim) (w h : ℝ)
    (hw : 2 * Combined.PARTICLE_RADIUS ≤ w)
    (hh : 2 * Combined.PARTICLE_RADIUS ≤ h) :
    (Combined.on_resize sim (w, h)).width = w ∧
    (Combined.on_resize sim (w, h)).height = h ∧
    ∀ i, i < sim.particles.length →
      (Combined.getP (Combined.on_resize sim (w, h)).particles i).vel
          = (Combined.getP sim.particles i).vel ∧
      Combined.PARTICLE_RADIUS
          ≤ (Combined.getP (Combined.on_resize sim (w, h)).particles i).pos.1 ∧
      (Combined.getP (Combined.on_resize sim (w, h)).particles i).pos.1
          ≤ w - Combined.PARTICLE_RADIUS ∧
      Combined.PARTICLE_RADIUS
          ≤ (Combined.getP (Combined.on_resize sim (w, h)).particles i).pos.2 ∧
      (Combined.getP (Combined.on_resize sim (w, h)).particles i).pos.2
          ≤ h - Combined.PARTICLE_RADIUS ∧
      (Combined.PARTICLE_RADIUS ≤ (Combined.getP sim.particles i).pos.1 →
        (Combined.getP sim.particles i).pos.1 ≤ w - Combined.PARTICLE_RADIUS →
        (Combined.getP (Combined.on_resize sim (w, h)).particles i).pos.1
          = (Combined.getP sim.particles i).pos.1) ∧
      (Combined.PARTICLE_RADIUS ≤ (Combined.getP sim.particles i).pos.2 →
        (Combined.getP sim.particles i).pos.2 ≤ h - Combined.PARTICLE_RADIUS →
        (Combined.getP (Combined.on_resize sim (w, h)).particles i).pos.2
          = (Combined.getP sim.particles i).pos.2) := by
  refine ⟨rfl, rfl, ?_⟩
  intro i hi
  have hkey : Combined.getP (Combined.on_resize sim (w, h)).particles i
      = { Combined.getP sim.particles i with pos :=
            (min (max (Combined.getP sim.particles i).pos.1 Combined.PARTICLE_RADIUS)
              (w - Combined.PARTICLE_RADIUS),
             min (max (Combined.getP sim.particles i).pos.2 Combined.PARTICLE_RADIUS)
              (h - Combined.PARTICLE_RADIUS)) } := by
    show Combined.getP (sim.particles.map _) i = _
    unfold Combined.getP
    rw [getD_map_of_lt _ _ _ default _ hi]
  have hRw : Combined.PARTICLE_RADIUS ≤ w - Combined.PARTICLE_RADIUS := by
    linarith
  have hRh : Combined.PARTICLE_RADIUS ≤ h - Combined.PARTICLE_RADIUS := by
    linarith
  rw [hkey]
  refine ⟨rfl, ?_, min_le_right _ _, ?_, min_le_right _ _, ?_, ?_⟩
  · exact le_min (le_max_right _ _) hRw
  · exact le_min (le_max_right _ _) hRh
  · intro h1 h2
    dsimp only
    rw [max_eq_left h1, min_eq_left h2]
  · intro h1 h2
    dsimp only
    rw [max_eq_left h1, min_eq_left h2]

/-- Witness for C6: resizing a concrete one-particle simulation to
`400×300` sets the stored width. -/
theorem on_resize_clamps_spec_witness :
    (Combined.on_resize ⟨800, 600, [Combined.Particle.init (100, 100)]⟩
      (400, 300)).width = 400 :=
  (on_resize_clamps_spec ⟨800, 600, [Combined.Particle.init (100, 100)]⟩
    400 300 (by unfold Combined.PARTICLE_RADIUS; norm_num)
    (by unfold Combined.PARTICLE_RADIUS; norm_num)).1

/-! Indexing through one `List.set` pair. -/

theorem getD_set_self {α : Type} (l : List α) (i : ℕ) (a d : α)
    (hi : i < l.length) : (l.set i a).getD i d = a := by
  rw [List.getD_eq_getElem?_getD, List.getElem?_set_self hi]
  rfl

theorem getD_set_ne {α : Type} (l : List α) (i j : ℕ) (a d : α)
    (hij : i ≠ j) : (l.set i a).getD j d = l.getD j d := by
  rw [List.getD_eq_getElem?_getD, List.getElem?_set_ne hij,
    ← List.getD_eq_getElem?_getD]

/-- First particle of the separating-overlap counterexample for C5. -/
def r1SepA : R1.Particle := { R1.Particle.init 100 100 with vx := -1 }

/-- Second particle of the separating-overlap counterexample for C5. -/
def r1SepB : R1.Particle := { R1.Particle.init 103 100 with vx := 1 }

/-- **C5 (counterexample).** The claim fails on `main-R1.py`: its
`handle_collisions` applies the velocity impulse unconditionally.  The
concrete overlapping pair at distance `3 < 16` with velocities `(-1, 0)`
and `(1, 0)` is separating (closing speed `+2 ≥ 0`), yet particle 0's
horizontal velocity is changed from `-1` to `1`. -/
theorem r1_impulse_separating_counterexample :
    R1.pdist [r1SepA, r1SepB] 0 1 < r1SepA.radius + r1SepB.radius ∧
    0 ≤ (r1SepB.vx - r1SepA.vx)
          * ((r1SepB.x - r1SepA.x) / R1.pdist [r1SepA, r1SepB] 0 1)
        + (r1SepB.vy - r1SepA.vy)
          * ((r1SepB.y - r1SepA.y) / R1.pdist [r1SepA, r1SepB] 0 1) ∧
    (R1.getP (R1.handle_collisions [r1SepA, r1SepB]) 0).vx = 1 ∧
    r1SepA.vx = -1 := by
  have hd : R1.pdist [r1SepA, r1SepB] 0 1 = 3 := by
    show hypot (103 - 100) (100 - 100) = 3
    unfold hypot
    rw [show ((103 : ℝ) - 100) ^ 2 + ((100 : ℝ) - 100) ^ 2 = 3 ^ 2 by norm_num]
    exact Real.sqrt_sq (by norm_num)
  refine ⟨?_, ?_, ?_, rfl⟩
  · rw [hd]
    show (3 : ℝ) < R1.PARTICLE_RADIUS + R1.PARTICLE_RADIUS
    unfold R1.PARTICLE_RADIUS
    norm_num
  · rw [hd]
    dsimp only [r1SepA, r1SepB, R1.Particle.init]
    norm_num
  · have hfold : R1.handle_collisions [r1SepA, r1SepB]
        = R1.collide_pair [r1SepA, r1SepB] 0 1 := rfl
    rw [hfold]
    unfold R1.collide_pair
    have hd2 : hypot ((R1.getP [r1SepA, r1SepB] 1).x - (R1.getP [r1SepA, r1SepB] 0).x)
        ((R1.getP [r1SepA, r1SepB] 1).y - (R1.getP [r1SepA, r1SepB] 0).y) = 3 := hd
    dsimp only
    rw [hd2]
    rw [if_pos ?_]
    · show (R1.getP _ 0).vx = 1
      unfold R1.getP
      rw [getD_set_ne _ 1 0 _ _ (by norm_num),
        getD_set_self _ 0 _ _ (by norm_num)]
      show r1SepA.vx + 2.0 * ((r1SepB.vx - r1SepA.vx)
          * ((r1SepB.x - r1SepA.x) / 3) + (r1SepB.vy - r1SepA.vy)
          * ((r1SepB.y - r1SepA.y) / 3)) / (r1SepA.mass + r1SepB.mass)
          * r1SepB.mass * ((r1SepB.x - r1SepA.x) / 3) = 1
      dsimp only [r1SepA, r1SepB, R1.Particle.init]
      norm_num
    · constructor
      · show (3 : ℝ) < (R1.getP [r1SepA, r1SepB] 0).radius
            + (R1.getP [r1SepA, r1SepB] 1).radius
        show (3 : ℝ) < R1.PARTICLE_RADIUS + R1.PARTICLE_RADIUS
        unfold R1.PARTICLE_RADIUS
        norm_num
      · show (3 : ℝ) > R1.EPSILON
        unfold R1.EPSILON
        norm_num

/-- **C5 (amended).** In `main-o1.py`'s pairwise collision resolution the
claim holds with unit masses: for an overlapping pair the impulse
`-(1+elasticity)·closingSpeed/(1/m_i+1/m_j)` (with `m_i = m_j = 1`) is
applied only when the pair is approaching (closing speed negative); a
separating overlapping pair gets only the positional correction and every
ball's velocity is left unchanged.  `main-R1.py`'s resolver instead applies
its (equal-mass elastic) impulse unconditionally — see the
counterexample. -/
theorem o1_collision_impulse_spec (bs : List O1.Ball) (i j : ℕ)
    (hij : i ≠ j) (hi : i < bs.length) (hj : j < bs.length)
    (hover : ((O1.getB bs j).x - (O1.getB bs i).x)
          * ((O1.getB bs j).x - (O1.getB bs i).x)
        + ((O1.getB bs j).y - (O1.getB bs i).y)
          * ((O1.getB bs j).y - (O1.getB bs i).y)
        < (2 * O1.BALL_RADIUS) ^ 2) :
    (∀ sep_speed nx ny,
      sep_speed = ((O1.getB bs j).vx - (O1.getB bs i).vx) * nx
          + ((O1.getB bs j).vy - (O1.getB bs i).vy) * ny →
      nx = ((O1.getB bs j).x - (O1.getB bs i).x)
          / O1.collision_dist (((O1.getB bs j).x - (O1.getB bs i).x)
              * ((O1.getB bs j).x - (O1.getB bs i).x)
            + ((O1.getB bs j).y - (O1.getB bs i).y)
              * ((O1.getB bs j).y - (O1.getB bs i).y)) →
      ny = ((O1.getB bs j).y - (O1.getB bs i).y)
          / O1.collision_dist (((O1.getB bs j).x - (O1.getB bs i).x)
              * ((O1.getB bs j).x - (O1.getB bs i).x)
            + ((O1.getB bs j).y - (O1.getB bs i).y)
              * ((O1.getB bs j).y - (O1.getB bs i).y)) →
      (sep_speed < 0 →
        (O1.getB (O1.collide_pair bs i j) i).vx
            = (O1.getB bs i).vx
              - -(1 + O1.ELASTICITY) * sep_speed / (1 / 1 + 1 / 1) * nx ∧
        (O1.getB (O1.collide_pair bs i j) i).vy
            = (O1.getB bs i).vy
              - -(1 + O1.ELASTICITY) * sep_speed / (1 / 1 + 1 / 1) * ny ∧
        (O1.getB (O1.collide_pair bs i j) j).vx
            = (O1.getB bs j).vx
              + -(1 + O1.ELASTICITY) * sep_speed / (1 / 1 + 1 / 1) * nx ∧
        (O1.getB (O1.collide_pair bs i j) j).vy
            = (O1.getB bs j).vy
              + -(1 + O1.ELASTICITY) * sep_speed / (1 / 1 + 1 / 1) * ny) ∧
      (0 ≤ sep_speed →
        ∀ k, (O1.getB (O1.collide_pair bs i j) k).vx = (O1.getB bs k).vx ∧
          (O1.getB (O1.collide_pair bs i j) k).vy = (O1.getB bs k).vy)) := by
  intro sep_speed nx ny hsep hnx hny
  have getB_set_self : ∀ (bs2 : List O1.Ball) (m : ℕ) (a : O1.Ball),
      m < bs2.length → O1.getB (bs2.set m a) m = a := fun bs2 m a hm =>
    getD_set_self bs2 m a default hm
  have getB_set_ne : ∀ (bs2 : List O1.Ball) (m k : ℕ) (a : O1.Ball),
      m ≠ k → O1.getB (bs2.set m a) k = O1.getB bs2 k := fun bs2 m k a hm =>
    getD_set_ne bs2 m k a default hm
  constructor
  · intro happroach
    unfold O1.collide_pair
    dsimp only
    rw [if_pos hover, if_pos (by rw [hsep, hnx, hny] at happroach; exact happroach)]
    rw [getB_set_ne _ j i _ (Ne.symm hij), getB_set_self _ i _ hi,
      getB_set_self _ j _ (by rw [List.length_set]; exact hj)]
    rw [hsep, hnx, hny]
    refine ⟨?_, ?_, ?_, ?_⟩ <;> dsimp only <;> ring
  · intro hsep_ge
    intro k
    unfold O1.collide_pair
    dsimp only
    rw [if_pos hover, if_neg (by rw [hsep, hnx, hny] at hsep_ge; exact not_lt.2 hsep_ge)]
    by_cases hk : k = j
    · subst hk
      rw [getB_set_self _ k _ (by rw [List.length_set]; exact hj)]
      exact ⟨rfl, rfl⟩
    · by_cases hk2 : k = i
      · subst hk2
        rw [getB_set_ne _ j k _ (fun hh2 => hij (hh2 ▸ rfl)),
          getB_set_self _ k _ hi]
        exact ⟨rfl, rfl⟩
      · rw [getB_set_ne _ j k _ (fun hh2 => hk (hh2 ▸ rfl)),
          getB_set_ne _ i k _ (fun hh2 => hk2 (hh2 ▸ rfl))]
        exact ⟨rfl, rfl⟩

/-- Witness for C5 (amended): an approaching overlapping pair at distance
3 gets the impulse formula applied to ball 0's horizontal velocity. -/
theorem o1_collision_impulse_spec_witness :
    (O1.getB (O1.collide_pair [⟨100, 100, 1, 0⟩, ⟨103, 100, -1, 0⟩] 0 1) 0).vx
        = (1 : ℝ) - -(1 + O1.ELASTICITY) * (-2) / (1 / 1 + 1 / 1) * 1 := by
  have hc : O1.collision_dist
      (((103 : ℝ) - 100) * (103 - 100) + ((100 : ℝ) - 100) * (100 - 100)) = 3 := by
    unfold O1.collision_dist
    rw [if_pos (by norm_num)]
    rw [show ((103 : ℝ) - 100) * (103 - 100) + ((100 : ℝ) - 100) * (100 - 100)
      = 3 ^ 2 by norm_num]
    exact Real.sqrt_sq (by norm_num)
  have H := (o1_collision_impulse_spec [⟨100, 100, 1, 0⟩, ⟨103, 100, -1, 0⟩] 0 1
      (by norm_num) (by norm_num) (by norm_num)
      (show ((103 : ℝ) - 100) * (103 - 100) + ((100 : ℝ) - 100) * (100 - 100)
          < (2 * O1.BALL_RADIUS) ^ 2 by unfold O1.BALL_RADIUS; norm_num)
      (-2) 1 0
      (show (-2 : ℝ) = ((-1 : ℝ) - 1) * 1 + ((0 : ℝ) - 0) * 0 by norm_num)
      (show (1 : ℝ) = ((103 : ℝ) - 100) / O1.collision_dist
          (((103 : ℝ) - 100) * (103 - 100) + ((100 : ℝ) - 100) * (100 - 100)) by
        rw [hc]; norm_num)
      (show (0 : ℝ) = ((100 : ℝ) - 100) / O1.collision_dist
          (((103 : ℝ) - 100) * (103 - 100) + ((100 : ℝ) - 100) * (100 - 100)) by
        rw [hc]; norm_num)).1 (by norm_num)
  exact H.1

/-! Field preservation through the `main-R1.py` pipeline stages, used for
the zero-time-step and frame-invariant claims. -/

/-- The frame pipeline of `main-R1.py` up to (and excluding) collisions. -/
def r1_ps4 (st : R1.State) (dt : ℝ) : List R1.Particle :=
  R1.update_particles st.width st.height dt (R1.apply_gravity
    (R1.compute_forces
      (R1.compute_density_pressure st.particles
        (R1.find_neighbors st.particles R1.SMOOTHING_RADIUS) R1.SMOOTHING_RADIUS)
      (R1.find_neighbors st.particles R1.SMOOTHING_RADIUS) R1.SMOOTHING_RADIUS))

theorem r1_pre_damp_eq (st : R1.State) (dt : ℝ) :
    R1.pre_damp st dt = R1.handle_collisions (r1_ps4 st dt) := rfl

theorem r1_ps4_length (st : R1.State) (dt : ℝ) :
    (r1_ps4 st dt).length = st.particles.length := by
  unfold r1_ps4 R1.update_particles R1.apply_gravity R1.compute_forces
    R1.compute_density_pressure
  simp

/-- The density/pressure pass changes only `density` and `pressure`. -/
theorem r1_cdp_fields (ps : List R1.Particle) (ns : ℕ → List (ℕ × ℝ)) (h : ℝ)
    (i : ℕ) (hi : i < ps.length) :
    (R1.getP (R1.compute_density_pressure ps ns h) i).x = (R1.getP ps i).x ∧
    (R1.getP (R1.compute_density_pressure ps ns h) i).y = (R1.getP ps i).y ∧
    (R1.getP (R1.compute_density_pressure ps ns h) i).vx = (R1.getP ps i).vx ∧
    (R1.getP (R1.compute_density_pressure ps ns h) i).vy = (R1.getP ps i).vy ∧
    (R1.getP (R1.compute_density_pressure ps ns h) i).ax = (R1.getP ps i).ax ∧
    (R1.getP (R1.compute_density_pressure ps ns h) i).ay = (R1.getP ps i).ay ∧
    (R1.getP (R1.compute_density_pressure ps ns h) i).radius = (R1.getP ps i).radius ∧
    (R1.getP (R1.compute_density_pressure ps ns h) i).mass = (R1.getP ps i).mass := by
  unfold R1.compute_density_pressure R1.getP
  rw [getD_range_map _ _ _ _ hi]
  exact ⟨rfl, rfl, rfl, rfl, rfl, rfl, rfl, rfl⟩

/-- The force pass changes only the acceleration slots. -/
theorem r1_cf_fields (ps : List R1.Particle) (ns : ℕ → List (ℕ × ℝ)) (h : ℝ)
    (i : ℕ) (hi : i < ps.length) :
    (R1.getP (R1.compute_forces ps ns h) i).x = (R1.getP ps i).x ∧
    (R1.getP (R1.compute_forces ps ns h) i).y = (R1.getP ps i).y ∧
    (R1.getP (R1.compute_forces ps ns h) i).vx = (R1.getP ps i).vx ∧
    (R1.getP (R1.compute_forces ps ns h) i).vy = (R1.getP ps i).vy ∧
    (R1.getP (R1.compute_forces ps ns h) i).radius = (R1.getP ps i).radius ∧
    (R1.getP (R1.compute_forces ps ns h) i).mass = (R1.getP ps i).mass := by
  unfold R1.compute_forces R1.getP
  rw [getD_range_map _ _ _ _ hi]
  exact ⟨rfl, rfl, rfl, rfl, rfl, rfl⟩

theorem r1_getP_map (f : R1.Particle → R1.Particle) (ps : List R1.Particle)
    (i : ℕ) (hi : i < ps.length) :
    R1.getP (ps.map f) i = f (R1.getP ps i) :=
  getD_map_of_lt f ps i default default hi

theorem r1_getP_set_self (ps : List R1.Particle) (i : ℕ) (a : R1.Particle)
    (hi : i < ps.length) : R1.getP (ps.set i a) i = a :=
  getD_set_self ps i a default hi

theorem r1_getP_set_ne (ps : List R1.Particle) (i j : ℕ) (a : R1.Particle)
    (hij : i ≠ j) : R1.getP (ps.set i a) j = R1.getP ps j :=
  getD_set_ne ps i j a default hij

/-- The gravity loop changes only the acceleration slots. -/
theorem r1_gravity_fields (ps : List R1.Particle) (i : ℕ) (hi : i < ps.length) :
    (R1.getP (R1.apply_gravity ps) i).x = (R1.getP ps i).x ∧
    (R1.getP (R1.apply_gravity ps) i).y = (R1.getP ps i).y ∧
    (R1.getP (R1.apply_gravity ps) i).vx = (R1.getP ps i).vx ∧
    (R1.getP (R1.apply_gravity ps) i).vy = (R1.getP ps i).vy ∧
    (R1.getP (R1.apply_gravity ps) i).radius = (R1.getP ps i).radius ∧
    (R1.getP (R1.apply_gravity ps) i).mass = (R1.getP ps i).mass := by
  unfold R1.apply_gravity R1.getP
  rw [getD_map_of_lt _ _ _ default _ hi]
  exact ⟨rfl, rfl, rfl, rfl, rfl, rfl⟩

/-- With `dt = 0` and an in-bounds particle, the integration/boundary
update only resets the acceleration. -/
theorem r1_integrate_zero (w hh : ℝ) (p : R1.Particle)
    (h1 : p.radius ≤ p.x) (h2 : p.x ≤ w - p.radius)
    (h3 : p.radius ≤ p.y) (h4 : p.y ≤ hh - p.radius) :
    R1.integrate_boundary w hh 0 p = { p with ax := 0, ay := 0 } := by
  unfold R1.integrate_boundary
  dsimp only
  simp only [mul_zero, add_zero]
  rw [if_neg (not_lt.2 h1), if_neg (not_lt.2 h2),
    if_neg (not_lt.2 h3), if_neg (not_lt.2 h4)]

/-- Fields of the pipeline state just before collisions, at `dt = 0`, for
an in-bounds particle: positions, velocities, radius and mass are those of
the input state. -/
theorem r1_ps4_zero_fields (st : R1.State) (i : ℕ) (hi : i < st.particles.length)
    (h1 : (R1.getP st.particles i).radius ≤ (R1.getP st.particles i).x)
    (h2 : (R1.getP st.particles i).x ≤ st.width - (R1.getP st.particles i).radius)
    (h3 : (R1.getP st.particles i).radius ≤ (R1.getP st.particles i).y)
    (h4 : (R1.getP st.particles i).y ≤ st.height - (R1.getP st.particles i).radius) :
    (R1.getP (r1_ps4 st 0) i).x = (R1.getP st.particles i).x ∧
    (R1.getP (r1_ps4 st 0) i).y = (R1.getP st.particles i).y ∧
    (R1.getP (r1_ps4 st 0) i).vx = (R1.getP st.particles i).vx ∧
    (R1.getP (r1_ps4 st 0) i).vy = (R1.getP st.particles i).vy ∧
    (R1.getP (r1_ps4 st 0) i).radius = (R1.getP st.particles i).radius ∧
    (R1.getP (r1_ps4 st 0) i).mass = (R1.getP st.particles i).mass := by
  have hi1 : i < (R1.compute_density_pressure st.particles
      (R1.find_neighbors st.particles R1.SMOOTHING_RADIUS)
      R1.SMOOTHING_RADIUS).length := by
    unfold R1.compute_density_pressure
    simpa using hi
  have hi2 : i < (R1.compute_forces (R1.compute_density_pressure st.particles
      (R1.find_neighbors st.particles R1.SMOOTHING_RADIUS) R1.SMOOTHING_RADIUS)
      (R1.find_neighbors st.particles R1.SMOOTHING_RADIUS)
      R1.SMOOTHING_RADIUS).length := by
    unfold R1.compute_forces
    simpa using hi1
  have hi3 : i < (R1.apply_gravity (R1.compute_forces
      (R1.compute_density_pressure st.particles
        (R1.find_neighbors st.particles R1.SMOOTHING_RADIUS) R1.SMOOTHING_RADIUS)
      (R1.find_neighbors st.particles R1.SMOOTHING_RADIUS)
      R1.SMOOTHING_RADIUS)).length := by
    unfold R1.apply_gravity
    simpa using hi2
  obtain ⟨a1, a2, a3, a4, -, -, a7, a8⟩ :=
    r1_cdp_fields st.particles (R1.find_neighbors st.particles R1.SMOOTHING_RADIUS)
      R1.SMOOTHING_RADIUS i hi
  obtain ⟨b1, b2, b3, b4, b5, b6⟩ :=
    r1_cf_fields _ (R1.find_neighbors st.particles R1.SMOOTHING_RADIUS)
      R1.SMOOTHING_RADIUS i hi1
  obtain ⟨c1, c2, c3, c4, c5, c6⟩ := r1_gravity_fields _ i hi2
  have hkey : R1.getP (r1_ps4 st 0) i
      = { R1.getP (R1.apply_gravity (R1.compute_forces
            (R1.compute_density_pressure st.particles
              (R1.find_neighbors st.particles R1.SMOOTHING_RADIUS)
              R1.SMOOTHING_RADIUS)
            (R1.find_neighbors st.particles R1.SMOOTHING_RADIUS)
            R1.SMOOTHING_RADIUS)) i with ax := 0, ay := 0 } := by
    unfold r1_ps4 R1.update_particles
    rw [r1_getP_map _ _ _ hi3]
    exact r1_integrate_zero st.width st.height _
      (by rw [c5, b5, a7, c1, b1, a1]; exact h1)
      (by rw [c5, b5, a7, c1, b1, a1]; exact h2)
      (by rw [c5, b5, a7, c2, b2, a2]; exact h3)
      (by rw [c5, b5, a7, c2, b2, a2]; exact h4)
  rw [hkey]
  refine ⟨?_, ?_, ?_, ?_, ?_, ?_⟩
  · show (R1.getP _ i).x = _
    rw [c1, b1, a1]
  · show (R1.getP _ i).y = _
    rw [c2, b2, a2]
  · show (R1.getP _ i).vx = _
    rw [c3, b3, a3]
  · show (R1.getP _ i).vy = _
    rw [c4, b4, a4]
  · show (R1.getP _ i).radius = _
    rw [c5, b5, a7]
  · show (R1.getP _ i).mass = _
    rw [c6, b6, a8]

theorem r1_mem_pairs (n : ℕ) (ij : ℕ × ℕ) (hmem : ij ∈ R1.pairs n) :
    ij.1 < ij.2 ∧ ij.2 < n := by
  unfold R1.pairs at hmem
  simp only [List.mem_flatMap, List.mem_map, List.mem_filter, List.mem_range,
    decide_eq_true_eq] at hmem
  obtain ⟨a, ha, b, ⟨hb1, hb2⟩, rfl⟩ := hmem
  exact ⟨hb2, hb1⟩

/-- If no pair overlaps, the collision sweep of `main-R1.py` is the
identity. -/
theorem r1_collisions_noop (ps : List R1.Particle)
    (hsep : ∀ i j, i < j → j < ps.length →
      ¬ R1.pdist ps i j < (R1.getP ps i).radius + (R1.getP ps j).radius) :
    R1.handle_collisions ps = ps := by
  unfold R1.handle_collisions
  apply foldl_fixed
  intro ij hij
  obtain ⟨h1, h2⟩ := r1_mem_pairs ps.length ij hij
  unfold R1.collide_pair
  dsimp only
  rw [if_neg ?_]
  rintro ⟨hlt, -⟩
  exact hsep ij.1 ij.2 h1 h2 hlt

/-- **C3 (amended).** For every `main-R1.py` state whose particles are all
inside the boundary band and pairwise non-overlapping, one full frame step
with `dt = 0` leaves every particle's position unchanged.  (Unrestricted,
the claim is false: the collision resolver's positional correction and the
boundary clamp move positions regardless of `dt` — see the
counterexample.) -/
theorem zero_dt_preserves_positions (st : R1.State)
    (hin : ∀ i, i < st.particles.length →
      (R1.getP st.particles i).radius ≤ (R1.getP st.particles i).x ∧
      (R1.getP st.particles i).x ≤ st.width - (R1.getP st.particles i).radius ∧
      (R1.getP st.particles i).radius ≤ (R1.getP st.particles i).y ∧
      (R1.getP st.particles i).y ≤ st.height - (R1.getP st.particles i).radius)
    (hsep : ∀ i j, i < j → j < st.particles.length →
      ¬ R1.pdist st.particles i j
          < (R1.getP st.particles i).radius + (R1.getP st.particles j).radius) :
    ∀ i, i < st.particles.length →
      (R1.getP (R1.step st 0).particles i).x = (R1.getP st.particles i).x ∧
      (R1.getP (R1.step st 0).particles i).y = (R1.getP st.particles i).y := by
  intro i hi
  obtain ⟨hb1, hb2, hb3, hb4⟩ := hin i hi
  have hfields := r1_ps4_zero_fields st i hi hb1 hb2 hb3 hb4
  have hsep4 : ∀ a b, a < b → b < (r1_ps4 st 0).length →
      ¬ R1.pdist (r1_ps4 st 0) a b
          < (R1.getP (r1_ps4 st 0) a).radius + (R1.getP (r1_ps4 st 0) b).radius := by
    intro a b hab hbl
    have hbl2 : b < st.particles.length := by
      rw [r1_ps4_length] at hbl
      exact hbl
    have hal2 : a < st.particles.length := lt_trans hab hbl2
    obtain ⟨ha1, ha2, ha3, ha4⟩ := hin a hal2
    obtain ⟨hA1, hA2, -, -, hA5, -⟩ := r1_ps4_zero_fields st a hal2 ha1 ha2 ha3 ha4
    obtain ⟨hc1, hc2, hc3, hc4⟩ := hin b hbl2
    obtain ⟨hB1, hB2, -, -, hB5, -⟩ := r1_ps4_zero_fields st b hbl2 hc1 hc2 hc3 hc4
    have hpd : R1.pdist (r1_ps4 st 0) a b = R1.pdist st.particles a b := by
      unfold R1.pdist
      rw [hA1, hA2, hB1, hB2]
    rw [hpd, hA5, hB5]
    exact hsep a b hab hbl2
  have hcol : R1.handle_collisions (r1_ps4 st 0) = r1_ps4 st 0 :=
    r1_collisions_noop _ hsep4
  have hstep : (R1.step st 0).particles = R1.apply_damping (r1_ps4 st 0) := by
    show R1.apply_damping (R1.pre_damp st 0) = _
    rw [r1_pre_damp_eq, hcol]
  rw [hstep]
  have hi4 : i < (r1_ps4 st 0).length := by
    rw [r1_ps4_length]
    exact hi
  unfold R1.apply_damping
  rw [r1_getP_map _ _ _ hi4]
  obtain ⟨hx, hy, -, -, -, -⟩ := hfields
  exact ⟨hx, hy⟩

/-- Witness for C3 (amended): a concrete in-bounds, non-overlapping
two-particle state keeps particle 0's position under a zero-time-step
frame. -/
theorem zero_dt_preserves_positions_witness :
    (R1.getP (R1.step ⟨[R1.Particle.init 100 100, R1.Particle.init 300 300],
        800, 600⟩ 0).particles 0).x
      = (R1.getP (⟨[R1.Particle.init 100 100, R1.Particle.init 300 300],
        800, 600⟩ : R1.State).particles 0).x := by
  refine (zero_dt_preserves_positions
    ⟨[R1.Particle.init 100 100, R1.Particle.init 300 300], 800, 600⟩
    ?_ ?_ 0 (by norm_num)).1
  · intro i hi
    have hi2 : i < 2 := hi
    interval_cases i <;>
      simp [R1.getP, R1.Particle.init, R1.PARTICLE_RADIUS] <;> norm_num
  · intro i j hij hj
    have hj2 : j < 2 := hj
    interval_cases j
    · omega
    · have hi1 : i < 1 := hij
      interval_cases i
      have hpd : R1.pdist [R1.Particle.init 100 100, R1.Particle.init 300 300]
          0 1 = Real.sqrt 80000 := by
        show hypot (300 - 100) (300 - 100) = Real.sqrt 80000
        unfold hypot
        rw [show ((300 : ℝ) - 100) ^ 2 + ((300 : ℝ) - 100) ^ 2 = 80000 by norm_num]
      rw [hpd]
      show ¬ Real.sqrt 80000 < R1.PARTICLE_RADIUS + R1.PARTICLE_RADIUS
      unfold R1.PARTICLE_RADIUS
      refine not_lt.2 ?_
      rw [show (8 : ℝ) + 8 = Real.sqrt 256 by
        rw [show (256 : ℝ) = 16 ^ 2 by norm_num]
        rw [Real.sqrt_sq (by norm_num)]
        norm_num]
      exact Real.sqrt_le_sqrt (by norm_num)

/-- The concrete overlapping in-bounds state used against the frame
invariant and the zero-time-step claims: two particles 3 apart (overlap
since `2·radius = 16`), both inside the `800×600` domain. -/
def r1OverlapState : R1.State :=
  ⟨[R1.Particle.init 8 100, R1.Particle.init 11 100], 800, 600⟩

/-- Evaluation of one `dt = 0` frame of `main-R1.py` on `r1OverlapState`:
the collision stage's positional correction drags particle 0 from `x = 8`
to `x = 1.5`, outside the boundary band. -/
theorem r1_overlap_frame_eval :
    (R1.getP (R1.step r1OverlapState 0).particles 0).x = 1.5 := by
  have hp0 : R1.getP r1OverlapState.particles 0 = R1.Particle.init 8 100 := rfl
  have hp1 : R1.getP r1OverlapState.particles 1 = R1.Particle.init 11 100 := rfl
  have hlen : r1OverlapState.particles.length = 2 := rfl
  have hF0 := r1_ps4_zero_fields r1OverlapState 0 (by rw [hlen]; norm_num)
    (by rw [hp0]; unfold R1.Particle.init R1.PARTICLE_RADIUS; norm_num)
    (by rw [hp0]; unfold r1OverlapState R1.Particle.init R1.PARTICLE_RADIUS; norm_num)
    (by rw [hp0]; unfold R1.Particle.init R1.PARTICLE_RADIUS; norm_num)
    (by rw [hp0]; unfold r1OverlapState R1.Particle.init R1.PARTICLE_RADIUS; norm_num)
  have hF1 := r1_ps4_zero_fields r1OverlapState 1 (by rw [hlen]; norm_num)
    (by rw [hp1]; unfold R1.Particle.init R1.PARTICLE_RADIUS; norm_num)
    (by rw [hp1]; unfold r1OverlapState R1.Particle.init R1.PARTICLE_RADIUS; norm_num)
    (by rw [hp1]; unfold R1.Particle.init R1.PARTICLE_RADIUS; norm_num)
    (by rw [hp1]; unfold r1OverlapState R1.Particle.init R1.PARTICLE_RADIUS; norm_num)
  obtain ⟨f0x, f0y, f0vx, f0vy, f0r, f0m⟩ := hF0
  obtain ⟨f1x, f1y, f1vx, f1vy, f1r, f1m⟩ := hF1
  rw [hp0] at f0x f0y f0vx f0vy f0r f0m
  rw [hp1] at f1x f1y f1vx f1vy f1r f1m
  have g0x : (R1.getP (r1_ps4 r1OverlapState 0) 0).x = 8 := by rw [f0x]; rfl
  have g0y : (R1.getP (r1_ps4 r1OverlapState 0) 0).y = 100 := by rw [f0y]; rfl
  have g0vx : (R1.getP (r1_ps4 r1OverlapState 0) 0).vx = 0 := by
    rw [f0vx]
    unfold R1.Particle.init
    norm_num
  have g0vy : (R1.getP (r1_ps4 r1OverlapState 0) 0).vy = 0 := by
    rw [f0vy]
    unfold R1.Particle.init
    norm_num
  have g0r : (R1.getP (r1_ps4 r1OverlapState 0) 0).radius = 8 := by rw [f0r]; rfl
  have g0m : (R1.getP (r1_ps4 r1OverlapState 0) 0).mass = 1 := by
    rw [f0m]
    unfold R1.Particle.init
    norm_num
  have g1x : (R1.getP (r1_ps4 r1OverlapState 0) 1).x = 11 := by rw [f1x]; rfl
  have g1y : (R1.getP (r1_ps4 r1OverlapState 0) 1).y = 100 := by rw [f1y]; rfl
  have g1vx : (R1.getP (r1_ps4 r1OverlapState 0) 1).vx = 0 := by
    rw [f1vx]
    unfold R1.Particle.init
    norm_num
  have g1vy : (R1.getP (r1_ps4 r1OverlapState 0) 1).vy = 0 := by
    rw [f1vy]
    unfold R1.Particle.init
    norm_num
  have g1r : (R1.getP (r1_ps4 r1OverlapState 0) 1).radius = 8 := by rw [f1r]; rfl
  have g1m : (R1.getP (r1_ps4 r1OverlapState 0) 1).mass = 1 := by
    rw [f1m]
    unfold R1.Particle.init
    norm_num
  have hPlen : (r1_ps4 r1OverlapState 0).length = 2 := by
    rw [r1_ps4_length, hlen]
  have hpair2 : R1.pairs (r1_ps4 r1OverlapState 0).length = [(0, 1)] := by
    rw [hPlen]
    rfl
  have hcol : R1.handle_collisions (r1_ps4 r1OverlapState 0)
      = R1.collide_pair (r1_ps4 r1OverlapState 0) 0 1 := by
    unfold R1.handle_collisions
    rw [hpair2]
    rfl
  have hdist : hypot ((R1.getP (r1_ps4 r1OverlapState 0) 1).x
        - (R1.getP (r1_ps4 r1OverlapState 0) 0).x)
      ((R1.getP (r1_ps4 r1OverlapState 0) 1).y
        - (R1.getP (r1_ps4 r1OverlapState 0) 0).y) = 3 := by
    rw [g1x, g0x, g1y, g0y]
    unfold hypot
    rw [show ((11 : ℝ) - 8) ^ 2 + ((100 : ℝ) - 100) ^ 2 = 3 ^ 2 by norm_num]
    exact Real.sqrt_sq (by norm_num)
  have hcp : (R1.getP (R1.collide_pair (r1_ps4 r1OverlapState 0) 0 1) 0).x
      = 1.5 := by
    unfold R1.collide_pair
    dsimp only
    rw [hdist, g0r, g1r]
    rw [if_pos ⟨by norm_num, by unfold R1.EPSILON; norm_num⟩]
    rw [r1_getP_set_ne _ 1 0 _ (by norm_num),
      r1_getP_set_self _ 0 _ (by rw [hPlen]; norm_num)]
    dsimp only
    rw [g0x, g1x]
    norm_num
  have hstep : (R1.step r1OverlapState 0).particles
      = R1.apply_damping (R1.collide_pair (r1_ps4 r1OverlapState 0) 0 1) := by
    show R1.apply_damping (R1.pre_damp r1OverlapState 0) = _
    rw [r1_pre_damp_eq, hcol]
  rw [hstep]
  unfold R1.apply_damping
  rw [r1_getP_map _ _ _ (by rw [r1_collide_pair_length, hPlen]; norm_num)]
  exact hcp

/-- **C3 (counterexample).** The claim fails as stated: a full `dt = 0`
frame of `main-R1.py` on the in-bounds overlapping state `r1OverlapState`
moves particle 0 from `x = 8` to `x = 1.5` (the collision stage's
positional correction is independent of `dt`). -/
theorem zero_dt_moves_counterexample :
    (R1.getP (R1.step r1OverlapState 0).particles 0).x
      ≠ (R1.getP r1OverlapState.particles 0).x := by
  rw [r1_overlap_frame_eval,
    show R1.getP r1OverlapState.particles 0 = R1.Particle.init 8 100 from rfl,
    show (R1.Particle.init 8 100).x = 8 from rfl]
  norm_num

/-- **C1 (counterexample).** The claim fails on `main-R1.py`: starting from
`r1OverlapState` — every particle inside `[radius, dim − radius]` on both
axes — one completed frame (here with `dt = 0`) ends with particle 0 at
`x = 1.5 < radius = 8`, because the pairwise collision stage runs after the
boundary clamp and pushes overlapping particles out of bounds. -/
theorem frame_bounds_counterexample :
    (∀ i, i < r1OverlapState.particles.length →
      R1.PARTICLE_RADIUS ≤ (R1.getP r1OverlapState.particles i).x ∧
      (R1.getP r1OverlapState.particles i).x
        ≤ r1OverlapState.width - R1.PARTICLE_RADIUS ∧
      R1.PARTICLE_RADIUS ≤ (R1.getP r1OverlapState.particles i).y ∧
      (R1.getP r1OverlapState.particles i).y
        ≤ r1OverlapState.height - R1.PARTICLE_RADIUS) ∧
    (R1.getP (R1.step r1OverlapState 0).particles 0).x < R1.PARTICLE_RADIUS := by
  constructor
  · intro i hi
    have hi2 : i < 2 := hi
    interval_cases i <;>
      simp [R1.getP, r1OverlapState, R1.Particle.init, R1.PARTICLE_RADIUS] <;>
      norm_num
  · rw [r1_overlap_frame_eval]
    unfold R1.PARTICLE_RADIUS
    norm_num

theorem c_getP_map (f : Combined.Particle → Combined.Particle)
    (ps : List Combined.Particle) (i : ℕ) (hi : i < ps.length) :
    Combined.getP (ps.map f) i = f (Combined.getP ps i) :=
  getD_map_of_lt f ps i default default hi

theorem c_update_physics_length (ps : List Combined.Particle) :
    (Combined.update_physics ps).length = ps.length := by
  unfold Combined.update_physics Combined.force_pass Combined.density_pass
  simp

/-- **C1 (amended).** In `combined.py`, whose frame ends with the boundary
clamp (`handle_boundaries` is the final pipeline stage and there is no
pairwise collision stage), every completed frame leaves every particle's
position inside `[radius, width − radius] × [radius, height − radius]`,
provided the domain measures at least `2·radius` per axis.  In
`main-R1.py` the collision stage runs after the boundary clamp and can
break the invariant — see the counterexample. -/
theorem combined_frame_positions_in_bounds (sim : Combined.Sim)
    (hw : 2 * Combined.PARTICLE_RADIUS ≤ sim.width)
    (hh : 2 * Combined.PARTICLE_RADIUS ≤ sim.height) :
    ∀ i, i < sim.particles.length →
      Combined.PARTICLE_RADIUS
          ≤ (Combined.getP (Combined.frame sim).particles i).pos.1 ∧
      (Combined.getP (Combined.frame sim).particles i).pos.1
          ≤ sim.width - Combined.PARTICLE_RADIUS ∧
      Combined.PARTICLE_RADIUS
          ≤ (Combined.getP (Combined.frame sim).particles i).pos.2 ∧
      (Combined.getP (Combined.frame sim).particles i).pos.2
          ≤ sim.height - Combined.PARTICLE_RADIUS := by
  intro i hi
  have hi2 : i < ((Combined.update_physics sim.particles).map fun p =>
      Combined.Particle.update p Combined.TIME_STEP).length := by
    rw [List.length_map, c_update_physics_length]
    exact hi
  have hR : Combined.PARTICLE_RADIUS ≤ sim.width - Combined.PARTICLE_RADIUS := by
    linarith
  have hR2 : Combined.PARTICLE_RADIUS ≤ sim.height - Combined.PARTICLE_RADIUS := by
    linarith
  unfold Combined.frame Combined.handle_boundaries
  dsimp only
  rw [c_getP_map _ _ _ hi2]
  dsimp only
  refine ⟨?_, ?_, ?_, ?_⟩
  · by_cases h1 : (Combined.getP ((Combined.update_physics sim.particles).map fun p =>
        Combined.Particle.update p Combined.TIME_STEP) i).pos.1 < Combined.PARTICLE_RADIUS
    · simp only [if_pos h1]
      exact le_rfl
    · simp only [if_neg h1]
      by_cases h2 : (Combined.getP ((Combined.update_physics sim.particles).map fun p =>
          Combined.Particle.update p Combined.TIME_STEP) i).pos.1
            > sim.width - Combined.PARTICLE_RADIUS
      · simp only [if_pos h2]
        exact hR
      · simp only [if_neg h2]
        exact not_lt.1 h1
  · by_cases h1 : (Combined.getP ((Combined.update_physics sim.particles).map fun p =>
        Combined.Particle.update p Combined.TIME_STEP) i).pos.1 < Combined.PARTICLE_RADIUS
    · simp only [if_pos h1]
      exact hR
    · simp only [if_neg h1]
      by_cases h2 : (Combined.getP ((Combined.update_physics sim.particles).map fun p =>
          Combined.Particle.update p Combined.TIME_STEP) i).pos.1
            > sim.width - Combined.PARTICLE_RADIUS
      · simp only [if_pos h2]
        exact le_rfl
      · simp only [if_neg h2]
        exact not_lt.1 h2
  · by_cases h1 : (Combined.getP ((Combined.update_physics sim.particles).map fun p =>
        Combined.Particle.update p Combined.TIME_STEP) i).pos.2 < Combined.PARTICLE_RADIUS
    · simp only [if_pos h1]
      exact le_rfl
    · simp only [if_neg h1]
      by_cases h2 : (Combined.getP ((Combined.update_physics sim.particles).map fun p =>
          Combined.Particle.update p Combined.TIME_STEP) i).pos.2
            > sim.height - Combined.PARTICLE_RADIUS
      · simp only [if_pos h2]
        exact hR2
      · simp only [if_neg h2]
        exact not_lt.1 h1
  · by_cases h1 : (Combined.getP ((Combined.update_physics sim.particles).map fun p =>
        Combined.Particle.update p Combined.TIME_STEP) i).pos.2 < Combined.PARTICLE_RADIUS
    · simp only [if_pos h1]
      exact hR2
    · simp only [if_neg h1]
      by_cases h2 : (Combined.getP ((Combined.update_physics sim.particles).map fun p =>
          Combined.Particle.update p Combined.TIME_STEP) i).pos.2
            > sim.height - Combined.PARTICLE_RADIUS
      · simp only [if_pos h2]
        exact le_rfl
      · simp only [if_neg h2]
        exact not_lt.1 h2

/-! The two-particle force-pass evaluation for the pressure-sign claim. -/

/-- Two particles on the x-axis at separation `15 = 0.5·h` with zero
velocities and prescribed densities and pressures, as read by the force
pass of `combined.py`. -/
def c2State (d0 d1 pr0 pr1 : ℝ) : List Combined.Particle :=
  [⟨(0, 0), (0, 0), (0, 0), d0, pr0⟩, ⟨(15, 0), (0, 0), (0, 0), d1, pr1⟩]

/-- The unit vector pointing from `b` toward `a`. -/
def dirFrom (a b : ℝ × ℝ) : ℝ × ℝ :=
  ((a.1 - b.1) / Combined.norm2 (a - b), (a.2 - b.2) / Combined.norm2 (a - b))

theorem c_getP_range (f : ℕ → Combined.Particle) (n i : ℕ) (hi : i < n) :
    Combined.getP ((List.range n).map f) i = f i :=
  getD_range_map f n i default hi

theorem c2_cell0 : Combined.cell_of Combined.SMOOTHING_RADIUS ((0 : ℝ), (0 : ℝ))
    = (0, 0) := by
  unfold Combined.cell_of Combined.SMOOTHING_RADIUS pyInt
  norm_num

theorem c2_cell1 : Combined.cell_of Combined.SMOOTHING_RADIUS ((15 : ℝ), (0 : ℝ))
    = (0, 0) := by
  unfold Combined.cell_of Combined.SMOOTHING_RADIUS pyInt
  have hfloor : ⌊(15 : ℝ) / 30⌋ = 0 := by
    rw [Int.floor_eq_iff]
    constructor <;> norm_num
  norm_num [hfloor]

theorem c2_neighbors (d0 d1 pr0 pr1 : ℝ) :
    Combined.get_neighbors Combined.SMOOTHING_RADIUS (c2State d0 d1 pr0 pr1)
      ((0 : ℝ), (0 : ℝ)) = [0, 1] := by
  unfold Combined.get_neighbors Combined.grid_cell
  rw [c2_cell0]
  have hp0 : Combined.getP (c2State d0 d1 pr0 pr1) 0
      = ⟨(0, 0), (0, 0), (0, 0), d0, pr0⟩ := rfl
  have hp1 : Combined.getP (c2State d0 d1 pr0 pr1) 1
      = ⟨(15, 0), (0, 0), (0, 0), d1, pr1⟩ := rfl
  have hlen : (c2State d0 d1 pr0 pr1).length = 2 := rfl
  rw [hlen]
  simp only [show List.range 2 = [0, 1] from rfl, List.filter_cons,
    List.filter_nil, hp0, hp1, c2_cell0, c2_cell1, List.flatMap_cons,
    List.flatMap_nil]
  decide

/-- The norm of the separation vector between the two scenario particles. -/
theorem c2_norm : Combined.norm2 (((15 : ℝ), (0 : ℝ)) - ((0 : ℝ), (0 : ℝ))) = 15 := by
  rw [Prod.mk_sub_mk]
  unfold Combined.norm2
  rw [show ((15 : ℝ) - 0) ^ 2 + ((0 : ℝ) - 0) ^ 2 = 15 ^ 2 by norm_num]
  exact Real.sqrt_sq (by norm_num)

/-- Evaluation of the force pass of `combined.py` on the two-particle
scenario: the x-acceleration of particle 0. -/
theorem c2_force_eval (d0 d1 pr0 pr1 : ℝ) :
    (Combined.getP (Combined.force_pass (c2State d0 d1 pr0 pr1)) 0).acc.1
      = -((pr0 + pr1) / (2 * d1)
          * Combined.spiky_gradient 15 Combined.SMOOTHING_RADIUS) / d0 := by
  unfold Combined.force_pass
  rw [c_getP_range _ _ 0 (by rw [show (c2State d0 d1 pr0 pr1).length = 2 from rfl]; norm_num)]
  dsimp only
  have hp0 : Combined.getP (c2State d0 d1 pr0 pr1) 0
      = ⟨(0, 0), (0, 0), (0, 0), d0, pr0⟩ := rfl
  have hgn : Combined.get_neighbors Combined.SMOOTHING_RADIUS
      (c2State d0 d1 pr0 pr1)
      (Combined.getP (c2State d0 d1 pr0 pr1) 0).pos = [0, 1] := by
    rw [hp0]
    exact c2_neighbors d0 d1 pr0 pr1
  rw [hgn]
  have hc00 : Combined.force_contrib (Combined.getP (c2State d0 d1 pr0 pr1) 0)
      (c2State d0 d1 pr0 pr1) 0 0 = (0, 0) := by
    unfold Combined.force_contrib
    rw [if_pos rfl]
  have hc01 : Combined.force_contrib (Combined.getP (c2State d0 d1 pr0 pr1) 0)
      (c2State d0 d1 pr0 pr1) 0 1
      = (-((pr0 + pr1) / (2 * d1)
            * Combined.spiky_gradient 15 Combined.SMOOTHING_RADIUS), 0) := by
    unfold Combined.force_contrib
    rw [if_neg (by norm_num)]
    dsimp only
    rw [hp0]
    rw [show Combined.getP (c2State d0 d1 pr0 pr1) 1
        = ⟨(15, 0), (0, 0), (0, 0), d1, pr1⟩ from rfl]
    dsimp only
    rw [c2_norm]
    rw [if_neg (by norm_num)]
    unfold Combined.VISCOSITY
    norm_num
  rw [List.map_cons, List.map_cons, List.map_nil, List.sum_cons, List.sum_cons,
    List.sum_nil, hc00, hc01, hp0]
  dsimp only
  unfold Combined.GRAVITY
  simp only [Prod.fst_add, Prod.snd_add, Prod.fst_zero, Prod.snd_zero]
  ring

/-- **C2 (counterexample).** The claim fails on `combined.py`: with
pressures `(10, 0)`, densities `300`, zero velocities and separation
`15 = 0.5·h`, the pressure-induced acceleration of particle `i` points
*toward* particle `j` — its component along the unit vector from `j` toward
`i` is not positive (it is strictly negative), because the force line
multiplies the already-negative `spiky_gradient` by `-r̂_ij` once more. -/
theorem pressure_force_sign_counterexample :
    ¬ (0 < (Combined.getP (Combined.force_pass (c2State 300 300 10 0)) 0).acc.1
          * (dirFrom ((0 : ℝ), (0 : ℝ)) ((15 : ℝ), (0 : ℝ))).1
        + (Combined.getP (Combined.force_pass (c2State 300 300 10 0)) 0).acc.2
          * (dirFrom ((0 : ℝ), (0 : ℝ)) ((15 : ℝ), (0 : ℝ))).2) := by
  have hnorm : Combined.norm2 (((0 : ℝ), (0 : ℝ)) - ((15 : ℝ), (0 : ℝ))) = 15 := by
    rw [Prod.mk_sub_mk]
    unfold Combined.norm2
    rw [show ((0 : ℝ) - 15) ^ 2 + ((0 : ℝ) - 0) ^ 2 = 15 ^ 2 by norm_num]
    exact Real.sqrt_sq (by norm_num)
  have hdir : dirFrom ((0 : ℝ), (0 : ℝ)) ((15 : ℝ), (0 : ℝ)) = (-1, 0) := by
    unfold dirFrom
    rw [hnorm]
    norm_num
  have hsp : Combined.spiky_gradient 15 Combined.SMOOTHING_RADIUS < 0 := by
    unfold Combined.spiky_gradient Combined.SMOOTHING_RADIUS
    rw [if_pos (by norm_num)]
    have hpi : (0 : ℝ) < π := Real.pi_pos
    have h1 : (0 : ℝ) < 45 / (π * 30 ^ 6) * (30 - 15) ^ 2 := by positivity
    have heq : (-45 : ℝ) / (π * 30 ^ 6) * (30 - 15) ^ 2
        = -(45 / (π * 30 ^ 6) * (30 - 15) ^ 2) := by ring
    rw [heq]
    linarith
  rw [hdir, c2_force_eval]
  dsimp only
  rw [mul_zero, add_zero]
  refine not_lt.2 (le_of_lt ?_)
  have h2 : -((10 + 0) / (2 * 300)
      * Combined.spiky_gradient 15 Combined.SMOOTHING_RADIUS) / 300 * -1
      = (10 + 0) / (2 * 300)
        * Combined.spiky_gradient 15 Combined.SMOOTHING_RADIUS / 300 := by
    ring
  rw [h2]
  have h3 : (10 + 0 : ℝ) / (2 * 300)
      * Combined.spiky_gradient 15 Combined.SMOOTHING_RADIUS < 0 := by
    nlinarith
  exact div_neg_of_neg_of_pos h3 (by norm_num)

/-- **C2 (amended).** For the two-particle scenario of the claim
(separation `0.5·h` along the x-axis, pressures `(10, 0)`, zero
velocities) with any positive densities, the acceleration that
`combined.py`'s force pass gives particle `i` has a strictly *negative*
component along the unit vector from `j` toward `i`: the pressure force is
directed toward the neighbour, not away from it. -/
theorem pressure_force_toward_neighbor (d0 d1 : ℝ) (h0 : 0 < d0) (h1 : 0 < d1) :
    (Combined.getP (Combined.force_pass (c2State d0 d1 10 0)) 0).acc.1
        * (dirFrom ((0 : ℝ), (0 : ℝ)) ((15 : ℝ), (0 : ℝ))).1
      + (Combined.getP (Combined.force_pass (c2State d0 d1 10 0)) 0).acc.2
        * (dirFrom ((0 : ℝ), (0 : ℝ)) ((15 : ℝ), (0 : ℝ))).2
      < 0 := by
  have hnorm : Combined.norm2 (((0 : ℝ), (0 : ℝ)) - ((15 : ℝ), (0 : ℝ))) = 15 := by
    rw [Prod.mk_sub_mk]
    unfold Combined.norm2
    rw [show ((0 : ℝ) - 15) ^ 2 + ((0 : ℝ) - 0) ^ 2 = 15 ^ 2 by norm_num]
    exact Real.sqrt_sq (by norm_num)
  have hdir : dirFrom ((0 : ℝ), (0 : ℝ)) ((15 : ℝ), (0 : ℝ)) = (-1, 0) := by
    unfold dirFrom
    rw [hnorm]
    norm_num
  have hsp : Combined.spiky_gradient 15 Combined.SMOOTHING_RADIUS < 0 := by
    unfold Combined.spiky_gradient Combined.SMOOTHING_RADIUS
    rw [if_pos (by norm_num)]
    have hpi : (0 : ℝ) < π := Real.pi_pos
    have hpos : (0 : ℝ) < 45 / (π * 30 ^ 6) * (30 - 15) ^ 2 := by positivity
    have heq : (-45 : ℝ) / (π * 30 ^ 6) * (30 - 15) ^ 2
        = -(45 / (π * 30 ^ 6) * (30 - 15) ^ 2) := by ring
    rw [heq]
    linarith
  rw [hdir, c2_force_eval]
  dsimp only
  rw [mul_zero, add_zero]
  have h2 : -((10 + 0) / (2 * d1)
      * Combined.spiky_gradient 15 Combined.SMOOTHING_RADIUS) / d0 * -1
      = (10 + 0) / (2 * d1)
        * Combined.spiky_gradient 15 Combined.SMOOTHING_RADIUS / d0 := by
    ring
  rw [h2]
  have h3 : (10 + 0 : ℝ) / (2 * d1)
      * Combined.spiky_gradient 15 Combined.SMOOTHING_RADIUS < 0 := by
    have hc : (0 : ℝ) < (10 + 0) / (2 * d1) := by positivity
    nlinarith
  exact div_neg_of_neg_of_pos h3 h0

/-- Witness for C2 (amended): the sign result at densities `300`. -/
theorem pressure_force_toward_neighbor_witness :
    (Combined.getP (Combined.force_pass (c2State 300 300 10 0)) 0).acc.1
        * (dirFrom ((0 : ℝ), (0 : ℝ)) ((15 : ℝ), (0 : ℝ))).1
      + (Combined.getP (Combined.force_pass (c2State 300 300 10 0)) 0).acc.2
        * (dirFrom ((0 : ℝ), (0 : ℝ)) ((15 : ℝ), (0 : ℝ))).2
      < 0 :=
  pressure_force_toward_neighbor 300 300 (by norm_num) (by norm_num)
theorem combined_frame_positions_in_bounds_witness :
    Combined.PARTICLE_RADIUS ≤ (Combined.getP
      (Combined.frame ⟨800, 600, [Combined.Particle.init (100, 100)]⟩).particles
        0).pos.1 :=
  (combined_frame_positions_in_bounds
    ⟨800, 600, [Combined.Particle.init (100, 100)]⟩
    (by unfold Combined.PARTICLE_RADIUS; norm_num)
    (by unfold Combined.PARTICLE_RADIUS; norm_num) 0 (by simp)).1

theorem c4_cell100 : Combined.cell_of Combined.SMOOTHING_RADIUS
    ((100 : ℝ), (100 : ℝ)) = (3, 3) := by
  unfold Combined.cell_of Combined.SMOOTHING_RADIUS pyInt
  have hfloor : ⌊(100 : ℝ) / 30⌋ = 3 := by
    rw [Int.floor_eq_iff]
    constructor <;> norm_num
  norm_num [hfloor]

theorem c4_neighbors : Combined.get_neighbors Combined.SMOOTHING_RADIUS
    [Combined.Particle.init (100, 100)] ((100 : ℝ), (100 : ℝ)) = [0] := by
  unfold Combined.get_neighbors Combined.grid_cell
  rw [c4_cell100]
  rw [show ([Combined.Particle.init (100, 100)] : List Combined.Particle).length
    = 1 from rfl]
  simp only [show List.range 1 = [0] from rfl, List.filter_cons, List.filter_nil,
    show Combined.getP [Combined.Particle.init (100, 100)] 0
      = Combined.Particle.init (100, 100) from rfl,
    show (Combined.Particle.init (100, 100)).pos = ((100 : ℝ), (100 : ℝ)) from rfl,
    c4_cell100, List.flatMap_cons, List.flatMap_nil]
  decide

/-- **C4 (counterexample).** The claim fails on the cited density loop of
`combined.py`: it applies no floor, so an isolated particle (a one-particle
simulation) receives as density only its kernel self-contribution
`poly6(0, h)`, which is not the rest-density floor `REST_DENSITY * 0.1`
(it is smaller than 1, while the floor is 30). -/
theorem c_density_no_floor_counterexample :
    (Combined.getP (Combined.density_pass [Combined.Particle.init (100, 100)])
        0).density = Combined.poly6_kernel 0 Combined.SMOOTHING_RADIUS ∧
    (Combined.getP (Combined.density_pass [Combined.Particle.init (100, 100)])
        0).density ≠ Combined.REST_DENSITY * 0.1 := by
  have hval : (Combined.getP (Combined.density_pass
      [Combined.Particle.init (100, 100)]) 0).density
      = Combined.poly6_kernel 0 Combined.SMOOTHING_RADIUS := by
    unfold Combined.density_pass
    rw [c_getP_range _ _ 0 (by norm_num)]
    dsimp only
    rw [show (Combined.getP [Combined.Particle.init (100, 100)] 0).pos
      = ((100 : ℝ), (100 : ℝ)) from rfl]
    rw [c4_neighbors]
    simp only [List.map_cons, List.map_nil, List.sum_cons, List.sum_nil]
    rw [show Combined.getP [Combined.Particle.init (100, 100)] 0
      = Combined.Particle.init (100, 100) from rfl]
    rw [show (Combined.Particle.init (100, 100)).pos
      = ((100 : ℝ), (100 : ℝ)) from rfl]
    rw [sub_self]
    have hn0 : Combined.norm2 (0 : ℝ × ℝ) = 0 := by
      unfold Combined.norm2
      rw [show ((0 : ℝ × ℝ)).1 ^ 2 + ((0 : ℝ × ℝ)).2 ^ 2 = 0 by norm_num]
      exact Real.sqrt_zero
    rw [hn0, add_zero]
  refine ⟨hval, ?_⟩
  rw [hval]
  have hlt : Combined.poly6_kernel 0 Combined.SMOOTHING_RADIUS
      < Combined.REST_DENSITY * 0.1 := by
    unfold Combined.poly6_kernel Combined.SMOOTHING_RADIUS Combined.REST_DENSITY
    rw [if_pos (by norm_num : (0 : ℝ) < 30)]
    have hpi : (3 : ℝ) < π := Real.pi_gt_three
    have hden : (0 : ℝ) < 64 * π * 30 ^ 9 := by positivity
    rw [show ((30 : ℝ) ^ 2 - 0 ^ 2) ^ 3 = 30 ^ 6 by norm_num]
    rw [div_mul_eq_mul_div, div_lt_iff₀ hden]
    nlinarith
  exact ne_of_lt hlt

end
